import Mathlib

/-!
Shallow embedding of the Telink B91 mbedtls ECP hardware backend
(`b91/adapter/hals/mbedtls/src/mbedtls/internal/ecp_alt_b91_backend.c`).

The backend dispatches elliptic-curve point operations to the B91 PKE
hardware accelerator.  Pointers that may be `NULL` are rendered as
`Option`; the arbitrary-precision integers (`mbedtls_mpi`) are rendered
as little-endian limb lists; byte buffers are `List Nat` with each
entry below 256 (the range of `unsigned char`); the hardware engine and
the accelerator lock are external collaborators, so the engine is a
parameter (a record of functions) and lock/unlock and engine calls are
recorded in an event trace returned alongside the result.
-/

set_option linter.unusedVariables false

/-- An `mbedtls_mpi`: little-endian list of 32-bit limbs.  `p = []` models
`X.p == NULL` (equivalently `X.n == 0`), the state after `mbedtls_mpi_init`. -/
structure Mpi where
  p : List Nat
  deriving DecidableEq

/-- `X->n`, the limb count of an mpi. -/
def Mpi.n (X : Mpi) : Nat := X.p.length

/-- `ciL`: chars in limb, `sizeof(mbedtls_mpi_uint)` = 4 on this 32-bit target. -/
def ciL : Nat := 4

/-- `GET_BYTE( X, i )`: byte `i` of the little-endian representation of `X`,
`( ( X->p[i / ciL] >> ( ( i % ciL ) * 8 ) ) & 0xff )`, without range checks
(an out-of-range limb read is rendered as 0; the source only evaluates
`GET_BYTE` for `i < X->n * ciL`). -/
def GET_BYTE (X : Mpi) (i : Nat) : Nat :=
  (X.p.getD (i / ciL) 0 >>> ((i % ciL) * 8)) &&& 0xff

/-- `CHARS_TO_LIMBS(i) = i / ciL + ( i % ciL != 0 )`. -/
def CHARS_TO_LIMBS (i : Nat) : Nat :=
  i / ciL + (if i % ciL ≠ 0 then 1 else 0)

/-- Modelled from the spec: `MBEDTLS_ERR_ECP_BAD_INPUT_DATA` from the mbedtls
headers (not under src/); the `InvalidInput` error of the taxonomy. -/
def MBEDTLS_ERR_ECP_BAD_INPUT_DATA : Int := -0x4F80

/-- Modelled from the spec: `MBEDTLS_ERR_PLATFORM_FEATURE_UNSUPPORTED` from the
mbedtls headers (not under src/); the `UnsupportedFeature` error. -/
def MBEDTLS_ERR_PLATFORM_FEATURE_UNSUPPORTED : Int := -0x0072

/-- Modelled from the spec: `MBEDTLS_ERR_ECP_INVALID_KEY` from the mbedtls
headers (not under src/); the `InvalidKey` error. -/
def MBEDTLS_ERR_ECP_INVALID_KEY : Int := -0x4C80

/-- Modelled from the spec: `MBEDTLS_ERR_PLATFORM_HW_ACCEL_FAILED` from the
mbedtls headers (not under src/); the `HardwareAccelFailed` error. -/
def MBEDTLS_ERR_PLATFORM_HW_ACCEL_FAILED : Int := -0x0070

/-- Modelled from the spec: `MBEDTLS_ERR_MPI_BUFFER_TOO_SMALL` from the mbedtls
headers (not under src/); the `BufferTooSmall` error. -/
def MBEDTLS_ERR_MPI_BUFFER_TOO_SMALL : Int := -0x0008

/-- `mbedtls_mpi_write_binary_le( X, buf, buflen )`: export `X` into
little-endian bytes.  The destination buffer is passed (and returned) as a
byte list; `buflen` is its length.  If the stored representation is larger
than the buffer and some excess byte is nonzero, the function returns
`MBEDTLS_ERR_MPI_BUFFER_TOO_SMALL` before writing anything (the buffer is
returned unchanged); otherwise it copies the low `min(stored, buflen)` bytes
and zero-fills any remainder, returning 0. -/
def mbedtls_mpi_write_binary_le (X : Mpi) (buf : List Nat) : Int × List Nat :=
  let stored_bytes := X.n * ciL
  let buflen := buf.length
  if stored_bytes < buflen then
    (0, (List.range stored_bytes).map (GET_BYTE X) ++
        List.replicate (buflen - stored_bytes) 0)
  else if ∃ i ∈ Finset.Ico buflen stored_bytes, GET_BYTE X i ≠ 0 then
    (MBEDTLS_ERR_MPI_BUFFER_TOO_SMALL, buf)
  else
    (0, (List.range buflen).map (GET_BYTE X))

/-- `mbedtls_mpi_lset( X, z )` for small nonnegative `z`: grow to at least one
limb, zero all limbs, set limb 0 to `z`. -/
def mbedtls_mpi_lset (X : Mpi) (z : Nat) : Mpi :=
  { p := z :: List.replicate (X.p.length - 1) 0 }

/-- The per-byte import loop of `mbedtls_mpi_read_binary_le`,
`X->p[i / ciL] |= buf[i] << ((i % ciL) << 3)`, run over a freshly zeroed limb
array: each limb receives up to `ciL = 4` bytes on disjoint 8-bit lanes, so
the accumulated `|=` is rendered as the sum of the shifted bytes, limb by
limb. -/
def bytesToLimbs : List Nat → List Nat
  | [] => []
  | [b0] => [b0]
  | [b0, b1] => [b0 + 2 ^ 8 * b1]
  | [b0, b1, b2] => [b0 + 2 ^ 8 * b1 + 2 ^ 16 * b2]
  | b0 :: b1 :: b2 :: b3 :: rest =>
      (b0 + 2 ^ 8 * b1 + 2 ^ 16 * b2 + 2 ^ 24 * b3) :: bytesToLimbs rest

/-- `mbedtls_mpi_read_binary_le( X, buf, buflen )`: import `X` from
little-endian bytes.  If `X` does not already have exactly
`CHARS_TO_LIMBS(buflen)` limbs it is freed and regrown to that many zero
limbs; it is then set to 0 (`mbedtls_mpi_lset(X, 0)`, which keeps at least one
limb), and the bytes are OR-ed in (`bytesToLimbs`).  The function cannot fail
in this model (allocation failure is outside it) and always returns the new
mpi. -/
def mbedtls_mpi_read_binary_le (X : Mpi) (buf : List Nat) : Mpi :=
  let limbs := CHARS_TO_LIMBS buf.length
  let X1 : Mpi := if X.p.length ≠ limbs then { p := List.replicate limbs 0 } else X
  let X2 := mbedtls_mpi_lset X1 0
  if buf.isEmpty then X2 else { p := bytesToLimbs buf }

/-- `mbedtls_ecp_group_id`, the mbedtls named-curve enumeration. -/
inductive mbedtls_ecp_group_id
  | MBEDTLS_ECP_DP_NONE
  | MBEDTLS_ECP_DP_SECP192R1
  | MBEDTLS_ECP_DP_SECP224R1
  | MBEDTLS_ECP_DP_SECP256R1
  | MBEDTLS_ECP_DP_SECP384R1
  | MBEDTLS_ECP_DP_SECP521R1
  | MBEDTLS_ECP_DP_BP256R1
  | MBEDTLS_ECP_DP_BP384R1
  | MBEDTLS_ECP_DP_BP512R1
  | MBEDTLS_ECP_DP_CURVE25519
  | MBEDTLS_ECP_DP_SECP192K1
  | MBEDTLS_ECP_DP_SECP224K1
  | MBEDTLS_ECP_DP_SECP256K1
  | MBEDTLS_ECP_DP_CURVE448
  deriving DecidableEq

/-- An `mbedtls_ecp_point`: X, Y, Z coordinates as mpis. -/
structure mbedtls_ecp_point where
  X : Mpi
  Y : Mpi
  Z : Mpi
  deriving DecidableEq

/-- An `mbedtls_ecp_group`: the fields the backend reads (curve id, bit length
of the prime, and the generator point used for classification). -/
structure mbedtls_ecp_group where
  id : mbedtls_ecp_group_id
  pbits : Nat
  G : mbedtls_ecp_point
  deriving DecidableEq

/-- `ecp_curve_type`: internal curve-family classification. -/
inductive ecp_curve_type
  | ECP_TYPE_NONE
  | ECP_TYPE_SHORT_WEIERSTRASS
  | ECP_TYPE_MONTGOMERY
  deriving DecidableEq

/-- `ecp_get_type( grp )`: `NONE` if `grp->G.X.p == NULL`, `MONTGOMERY` if
`grp->G.Y.p == NULL`, else `SHORT_WEIERSTRASS`. -/
def ecp_get_type (grp : mbedtls_ecp_group) : ecp_curve_type :=
  if grp.G.X.p = [] then ecp_curve_type.ECP_TYPE_NONE
  else if grp.G.Y.p = [] then ecp_curve_type.ECP_TYPE_MONTGOMERY
  else ecp_curve_type.ECP_TYPE_SHORT_WEIERSTRASS

/-- `eccp_curve_t`: the short-Weierstrass per-curve record handed to the PKE
engine (bit length of p, p, reduction helper, coefficients a and b), as limb
lists.  The source initializes the designated field `.eccp_p_h` twice; under C
semantics the second initializer wins, so that final value is embedded. -/
structure eccp_curve_t where
  eccp_p_bitLen : Nat
  eccp_p : List Nat
  eccp_p_h : List Nat
  eccp_a : List Nat
  eccp_b : List Nat
  deriving DecidableEq

/-- `mont_curve_t`: the Montgomery per-curve record (bit length, p, reduction
helpers, a24), as limb lists. -/
structure mont_curve_t where
  mont_p_bitLen : Nat
  mont_p : List Nat
  mont_p_h : List Nat
  mont_p_n1 : List Nat
  mont_a24 : List Nat
  deriving DecidableEq

/-- `secp256r1` HW curve record. -/
def secp256r1 : eccp_curve_t :=
  { eccp_p_bitLen := 256
    eccp_p := [0xffffffff, 0xffffffff, 0xffffffff, 0x00000000,
               0x00000000, 0x00000000, 0x00000001, 0xffffffff]
    eccp_p_h := [0x00000001]
    eccp_a := [0xfffffffc, 0xffffffff, 0xffffffff, 0x00000000,
               0x00000000, 0x00000000, 0x00000001, 0xffffffff]
    eccp_b := [0x27d2604b, 0x3bce3c3e, 0xcc53b0f6, 0x651d06b0,
               0x769886bc, 0xb3ebbd55, 0xaa3a93e7, 0x5ac635d8] }

/-- `secp256k1` HW curve record. -/
def secp256k1 : eccp_curve_t :=
  { eccp_p_bitLen := 256
    eccp_p := [0xfffffc2f, 0xfffffffe, 0xffffffff, 0xffffffff,
               0xffffffff, 0xffffffff, 0xffffffff, 0xffffffff]
    eccp_p_h := [0xd2253531]
    eccp_a := [0, 0, 0, 0, 0, 0, 0, 0]
    eccp_b := [7, 0, 0, 0, 0, 0, 0, 0] }

/-- `BP256r1` HW curve record. -/
def BP256r1 : eccp_curve_t :=
  { eccp_p_bitLen := 256
    eccp_p := [0x1f6e5377, 0x2013481d, 0xd5262028, 0x6e3bf623,
               0x9d838d72, 0x3e660a90, 0xa1eea9bc, 0xa9fb57db]
    eccp_p_h := [0xcefd89b9]
    eccp_a := [0xf330b5d9, 0xe94a4b44, 0x26dc5c6c, 0xfb8055c1,
               0x417affe7, 0xeef67530, 0xfc2c3057, 0x7d5a0975]
    eccp_b := [0xff8c07b6, 0x6bccdc18, 0x5cf7e1ce, 0x95841629,
               0xbbd77cbf, 0xf330b5d9, 0xe94a4b44, 0x26dc5c6c] }

/-- `secp224r1` HW curve record. -/
def secp224r1 : eccp_curve_t :=
  { eccp_p_bitLen := 224
    eccp_p := [0x00000001, 0x00000000, 0x00000000, 0xffffffff,
               0xffffffff, 0xffffffff, 0xffffffff]
    eccp_p_h := [0xffffffff]
    eccp_a := [0xfffffffe, 0xffffffff, 0xffffffff, 0xfffffffe,
               0xffffffff, 0xffffffff, 0xffffffff]
    eccp_b := [0x2355ffb4, 0x270b3943, 0xd7bfd8ba, 0x5044b0b7,
               0xf5413256, 0x0c04b3ab, 0xb4050a85] }

/-- `secp224k1` HW curve record. -/
def secp224k1 : eccp_curve_t :=
  { eccp_p_bitLen := 224
    eccp_p := [0xffffe56d, 0xfffffffe, 0xffffffff, 0xffffffff,
               0xffffffff, 0xffffffff, 0xffffffff]
    eccp_p_h := [0x198d139b]
    eccp_a := [0, 0, 0, 0, 0, 0, 0]
    eccp_b := [5, 0, 0, 0, 0, 0, 0] }

/-- `secp192r1` HW curve record. -/
def secp192r1 : eccp_curve_t :=
  { eccp_p_bitLen := 192
    eccp_p := [0xffffffff, 0xffffffff, 0xfffffffe, 0xffffffff,
               0xffffffff, 0xffffffff]
    eccp_p_h := [0x00000001]
    eccp_a := [0xfffffffc, 0xffffffff, 0xfffffffe, 0xffffffff,
               0xffffffff, 0xffffffff]
    eccp_b := [0xc146b9b1, 0xfeb8deec, 0x72243049, 0x0fa7e9ab,
               0xe59c80e7, 0x64210519] }

/-- `secp192k1` HW curve record. -/
def secp192k1 : eccp_curve_t :=
  { eccp_p_bitLen := 192
    eccp_p := [0xffffee37, 0xfffffffe, 0xffffffff, 0xffffffff,
               0xffffffff, 0xffffffff]
    eccp_p_h := [0x7446d879]
    eccp_a := [0, 0, 0, 0, 0, 0]
    eccp_b := [3, 0, 0, 0, 0, 0] }

/-- `x25519` HW curve record. -/
def x25519 : mont_curve_t :=
  { mont_p_bitLen := 255
    mont_p := [0xffffffed, 0xffffffff, 0xffffffff, 0xffffffff,
               0xffffffff, 0xffffffff, 0xffffffff, 0x7fffffff]
    mont_p_h := [0x000005a4, 0, 0, 0, 0, 0, 0, 0]
    mont_p_n1 := [0x286bca1b]
    mont_a24 := [0x0001db41, 0, 0, 0, 0, 0, 0, 0] }

/-- `eccp_curve_linking[]`: the static short-Weierstrass registry, in source
order (all the curves written in the source file). -/
def eccp_curve_linking : List (mbedtls_ecp_group_id × eccp_curve_t) :=
  [(mbedtls_ecp_group_id.MBEDTLS_ECP_DP_SECP256R1, secp256r1),
   (mbedtls_ecp_group_id.MBEDTLS_ECP_DP_SECP256K1, secp256k1),
   (mbedtls_ecp_group_id.MBEDTLS_ECP_DP_BP256R1, BP256r1),
   (mbedtls_ecp_group_id.MBEDTLS_ECP_DP_SECP224R1, secp224r1),
   (mbedtls_ecp_group_id.MBEDTLS_ECP_DP_SECP224K1, secp224k1),
   (mbedtls_ecp_group_id.MBEDTLS_ECP_DP_SECP192R1, secp192r1),
   (mbedtls_ecp_group_id.MBEDTLS_ECP_DP_SECP192K1, secp192k1)]

/-- `mont_curve_linking[]`: the static Montgomery registry. -/
def mont_curve_linking : List (mbedtls_ecp_group_id × mont_curve_t) :=
  [(mbedtls_ecp_group_id.MBEDTLS_ECP_DP_CURVE25519, x25519)]

/-- `eccp_curve_get( grp )`: linear scan of `eccp_curve_linking` for
`grp->id`, `NULL` (`none`) when absent. -/
def eccp_curve_get (grp : mbedtls_ecp_group) : Option eccp_curve_t :=
  (eccp_curve_linking.find? (fun e => decide (e.1 = grp.id))).map (fun e => e.2)

/-- `mont_curve_get( grp )`: linear scan of `mont_curve_linking` for
`grp->id`, `NULL` (`none`) when absent. -/
def mont_curve_get (grp : mbedtls_ecp_group) : Option mont_curve_t :=
  (mont_curve_linking.find? (fun e => decide (e.1 = grp.id))).map (fun e => e.2)

/-- Modelled from the spec: `GET_WORD_LEN(bitLen)` from the PKE driver header
`pke.h` (part of this repository but not under src/): the operand word count
`ceil(bitLen / 32)`. -/
def GET_WORD_LEN (bitLen : Nat) : Nat := (bitLen + 31) / 32

/-- Modelled from the spec: `PKE_OPERAND_MAX_WORD_LEN` from `pke.h` (part of
this repository but not under src/): the accelerator's maximum supported
operand width in words; 8 words = 256 bits on B91, matching the widest curve
in the registry. -/
def PKE_OPERAND_MAX_WORD_LEN : Nat := 8

/-- Modelled from the spec: `PKE_SUCCESS` from `pke.h` (part of this
repository but not under src/): the success return code of the engine, 0;
every other code is a negative answer or an engine fault. -/
def PKE_SUCCESS : Nat := 0

/-- Modelled from the spec: the hardware PKE engine, an external collaborator.
Operands and results are fixed-width little-endian byte buffers; each call
returns a status code (`PKE_SUCCESS` or not) and, for the point operations,
the output buffers that the engine wrote in place. -/
structure PkeEngine where
  point_verify : eccp_curve_t → List Nat → List Nat → Nat
  point_mul : eccp_curve_t → List Nat → List Nat → List Nat → Nat × List Nat × List Nat
  point_add : eccp_curve_t → List Nat → List Nat → List Nat → List Nat → Nat × List Nat × List Nat
  x25519_point_mul : mont_curve_t → List Nat → List Nat → Nat × List Nat

/-- Modelled from the spec: the observable accelerator events of one
operation, in order — `mbedtls_ecp_lock` / `mbedtls_ecp_unlock` (from
`multithread.h`, part of this repository but not under src/) and the engine
calls with the operand buffers they were handed. -/
inductive PkeEvent
  | lock
  | unlock
  | callVerify (Qx Qy : List Nat)
  | callPointMul (k Qx Qy : List Nat)
  | callPointAdd (x1 y1 x2 y2 : List Nat)
  | callX25519Mul (k Qx : List Nat)
  deriving DecidableEq

/-- Whether an event is a hardware-engine invocation (rather than a lock
transition). -/
def PkeEvent.isEngineCall : PkeEvent → Bool
  | PkeEvent.lock => false
  | PkeEvent.unlock => false
  | _ => true

/-- The indeterminate initial contents of a stack VLA of `len` bytes: the
caller-chosen junk `indet`, truncated or zero-padded to exactly `len`. -/
def vla (len : Nat) (indet : List Nat) : List Nat :=
  indet.take len ++ List.replicate (len - indet.length) 0

/-- Result of `ecp_alt_b91_backend_check_pubkey`: the returned code, the final
contents of the `Qx`/`Qy` stack buffers (empty when they were never
allocated), and the event trace. -/
structure CheckPubkeyResult where
  ret : Int
  Qx : List Nat
  Qy : List Nat
  trace : List PkeEvent
  deriving DecidableEq

/-- `ecp_alt_b91_backend_check_pubkey( grp, pt )`.  `initQx`/`initQy` model
the indeterminate initial contents of the stack VLAs. -/
def ecp_alt_b91_backend_check_pubkey (eng : PkeEngine)
    (grp : Option mbedtls_ecp_group) (pt : Option mbedtls_ecp_point)
    (initQx initQy : List Nat) : CheckPubkeyResult :=
  match grp, pt with
  | some grp, some pt =>
    let word_len := GET_WORD_LEN grp.pbits
    if word_len ≤ PKE_OPERAND_MAX_WORD_LEN then
      let sz := 4 * word_len
      let Qx0 := vla sz initQx
      let Qy0 := vla sz initQy
      match ecp_get_type grp with
      | ecp_curve_type.ECP_TYPE_SHORT_WEIERSTRASS =>
        match eccp_curve_get grp with
        | some eccp_curve =>
          let Qx1 := (mbedtls_mpi_write_binary_le pt.X Qx0).2
          let Qy1 := (mbedtls_mpi_write_binary_le pt.Y Qy0).2
          let v := eng.point_verify eccp_curve Qx1 Qy1
          { ret := if v = PKE_SUCCESS then 0 else MBEDTLS_ERR_ECP_INVALID_KEY
            Qx := List.replicate sz 0
            Qy := List.replicate sz 0
            trace := [PkeEvent.lock, PkeEvent.callVerify Qx1 Qy1, PkeEvent.unlock] }
        | none =>
          { ret := MBEDTLS_ERR_PLATFORM_FEATURE_UNSUPPORTED
            Qx := List.replicate sz 0
            Qy := List.replicate sz 0
            trace := [] }
      | _ =>
        { ret := MBEDTLS_ERR_PLATFORM_FEATURE_UNSUPPORTED
          Qx := List.replicate sz 0
          Qy := List.replicate sz 0
          trace := [] }
    else
      { ret := MBEDTLS_ERR_PLATFORM_FEATURE_UNSUPPORTED
        Qx := []
        Qy := []
        trace := [] }
  | _, _ =>
    { ret := MBEDTLS_ERR_ECP_BAD_INPUT_DATA
      Qx := []
      Qy := []
      trace := [] }

/-- Result of `ecp_alt_b91_backend_mul`: the returned code, the output point
`R` after the call, the final contents of the `ms`/`Qx`/`Qy` stack buffers,
and the event trace. -/
structure MulResult where
  ret : Int
  R : Option mbedtls_ecp_point
  ms : List Nat
  Qx : List Nat
  Qy : List Nat
  trace : List PkeEvent
  deriving DecidableEq

/-- `ecp_alt_b91_backend_mul( grp, R, m, P )`.  `initms`/`initQx`/`initQy`
model the indeterminate initial contents of the stack VLAs.  When `R` is null
the dummy point fields of the result are taken from the null check and never
reached; the `R` field of the result is the point after the call. -/
def ecp_alt_b91_backend_mul (eng : PkeEngine)
    (grp : Option mbedtls_ecp_group) (R : Option mbedtls_ecp_point)
    (m : Option Mpi) (P : Option mbedtls_ecp_point)
    (initms initQx initQy : List Nat) : MulResult :=
  match grp, R, m, P with
  | some grp, some R, some m, some P =>
      let word_len := GET_WORD_LEN grp.pbits
      if word_len ≤ PKE_OPERAND_MAX_WORD_LEN then
        let sz := 4 * word_len
        let ms0 := vla sz initms
        let Qx0 := vla sz initQx
        let Qy0 := vla sz initQy
        match ecp_get_type grp with
        | ecp_curve_type.ECP_TYPE_SHORT_WEIERSTRASS =>
          match eccp_curve_get grp with
          | some eccp_curve =>
            let ms1 := (mbedtls_mpi_write_binary_le m ms0).2
            let Qx1 := (mbedtls_mpi_write_binary_le P.X Qx0).2
            let Qy1 := (mbedtls_mpi_write_binary_le P.Y Qy0).2
            let r := eng.point_mul eccp_curve ms1 Qx1 Qy1
            if r.1 = PKE_SUCCESS then
              { ret := 0
                R := some { X := mbedtls_mpi_read_binary_le R.X r.2.1
                            Y := mbedtls_mpi_read_binary_le R.Y r.2.2
                            Z := mbedtls_mpi_lset R.Z 1 }
                ms := List.replicate sz 0
                Qx := List.replicate sz 0
                Qy := List.replicate sz 0
                trace := [PkeEvent.lock, PkeEvent.callPointMul ms1 Qx1 Qy1,
                          PkeEvent.unlock] }
            else
              { ret := MBEDTLS_ERR_PLATFORM_HW_ACCEL_FAILED
                R := some R
                ms := List.replicate sz 0
                Qx := List.replicate sz 0
                Qy := List.replicate sz 0
                trace := [PkeEvent.lock, PkeEvent.callPointMul ms1 Qx1 Qy1,
                          PkeEvent.unlock] }
          | none =>
            { ret := MBEDTLS_ERR_PLATFORM_FEATURE_UNSUPPORTED
              R := some R
              ms := List.replicate sz 0
              Qx := List.replicate sz 0
              Qy := List.replicate sz 0
              trace := [] }
        | ecp_curve_type.ECP_TYPE_MONTGOMERY =>
          match mont_curve_get grp with
          | some mont_curve =>
            let ms1 := (mbedtls_mpi_write_binary_le m ms0).2
            let Qx1 := (mbedtls_mpi_write_binary_le P.X Qx0).2
            let r := eng.x25519_point_mul mont_curve ms1 Qx1
            if r.1 = PKE_SUCCESS then
              { ret := 0
                R := some { X := mbedtls_mpi_read_binary_le R.X r.2
                            Y := mbedtls_mpi_lset R.Y 0
                            Z := mbedtls_mpi_lset R.Z 1 }
                ms := List.replicate sz 0
                Qx := List.replicate sz 0
                Qy := List.replicate sz 0
                trace := [PkeEvent.lock, PkeEvent.callX25519Mul ms1 Qx1,
                          PkeEvent.unlock] }
            else
              { ret := MBEDTLS_ERR_PLATFORM_HW_ACCEL_FAILED
                R := some R
                ms := List.replicate sz 0
                Qx := List.replicate sz 0
                Qy := List.replicate sz 0
                trace := [PkeEvent.lock, PkeEvent.callX25519Mul ms1 Qx1,
                          PkeEvent.unlock] }
          | none =>
            { ret := MBEDTLS_ERR_PLATFORM_FEATURE_UNSUPPORTED
              R := some R
              ms := List.replicate sz 0
              Qx := List.replicate sz 0
              Qy := List.replicate sz 0
              trace := [] }
        | ecp_curve_type.ECP_TYPE_NONE =>
          { ret := MBEDTLS_ERR_PLATFORM_FEATURE_UNSUPPORTED
            R := some R
            ms := List.replicate sz 0
            Qx := List.replicate sz 0
            Qy := List.replicate sz 0
            trace := [] }
      else
        { ret := MBEDTLS_ERR_PLATFORM_FEATURE_UNSUPPORTED
          R := some R
          ms := []
          Qx := []
          Qy := []
          trace := [] }
  | _, _, _, _ =>
    { ret := MBEDTLS_ERR_ECP_BAD_INPUT_DATA
      R := R
      ms := []
      Qx := []
      Qy := []
      trace := [] }

/-- Result of `ecp_alt_b91_backend_muladd`: the returned code, the output
point `R` after the call, the final contents of the five stack buffers, and
the event trace. -/
structure MuladdResult where
  ret : Int
  R : Option mbedtls_ecp_point
  ms : List Nat
  Q1x : List Nat
  Q1y : List Nat
  Q2x : List Nat
  Q2y : List Nat
  trace : List PkeEvent
  deriving DecidableEq

/-- `ecp_alt_b91_backend_muladd( grp, R, m, P, n, Q )`: computes
`R = m * P + n * Q` via two hardware point-multiplies and one point-add, all
inside one lock/unlock pair, with the `do { } while(0)` breaks on the first
failing call.  `initms`..`initQ2y` model the indeterminate initial contents of
the stack VLAs. -/
def ecp_alt_b91_backend_muladd (eng : PkeEngine)
    (grp : Option mbedtls_ecp_group) (R : Option mbedtls_ecp_point)
    (m : Option Mpi) (P : Option mbedtls_ecp_point)
    (n : Option Mpi) (Q : Option mbedtls_ecp_point)
    (initms initQ1x initQ1y initQ2x initQ2y : List Nat) : MuladdResult :=
  match grp, R, m, P, n, Q with
  | some grp, some R, some m, some P, some n, some Q =>
      let word_len := GET_WORD_LEN grp.pbits
      if word_len ≤ PKE_OPERAND_MAX_WORD_LEN then
        let sz := 4 * word_len
        let ms0 := vla sz initms
        let Q1x0 := vla sz initQ1x
        let Q1y0 := vla sz initQ1y
        let Q2x0 := vla sz initQ2x
        let Q2y0 := vla sz initQ2y
        match ecp_get_type grp with
        | ecp_curve_type.ECP_TYPE_SHORT_WEIERSTRASS =>
          match eccp_curve_get grp with
          | some eccp_curve =>
            let Q1x1 := (mbedtls_mpi_write_binary_le P.X Q1x0).2
            let Q1y1 := (mbedtls_mpi_write_binary_le P.Y Q1y0).2
            let Q2x1 := (mbedtls_mpi_write_binary_le Q.X Q2x0).2
            let Q2y1 := (mbedtls_mpi_write_binary_le Q.Y Q2y0).2
            let ms1 := (mbedtls_mpi_write_binary_le m ms0).2
            let r1 := eng.point_mul eccp_curve ms1 Q1x1 Q1y1
            if r1.1 ≠ PKE_SUCCESS then
              { ret := MBEDTLS_ERR_PLATFORM_HW_ACCEL_FAILED
                R := some R
                ms := List.replicate sz 0
                Q1x := List.replicate sz 0
                Q1y := List.replicate sz 0
                Q2x := List.replicate sz 0
                Q2y := List.replicate sz 0
                trace := [PkeEvent.lock, PkeEvent.callPointMul ms1 Q1x1 Q1y1,
                          PkeEvent.unlock] }
            else
              let ms2 := (mbedtls_mpi_write_binary_le n ms1).2
              let r2 := eng.point_mul eccp_curve ms2 Q2x1 Q2y1
              if r2.1 ≠ PKE_SUCCESS then
                { ret := MBEDTLS_ERR_PLATFORM_HW_ACCEL_FAILED
                  R := some R
                  ms := List.replicate sz 0
                  Q1x := List.replicate sz 0
                  Q1y := List.replicate sz 0
                  Q2x := List.replicate sz 0
                  Q2y := List.replicate sz 0
                  trace := [PkeEvent.lock,
                            PkeEvent.callPointMul ms1 Q1x1 Q1y1,
                            PkeEvent.callPointMul ms2 Q2x1 Q2y1,
                            PkeEvent.unlock] }
              else
                let r3 := eng.point_add eccp_curve r1.2.1 r1.2.2 r2.2.1 r2.2.2
                if r3.1 ≠ PKE_SUCCESS then
                  { ret := MBEDTLS_ERR_PLATFORM_HW_ACCEL_FAILED
                    R := some R
                    ms := List.replicate sz 0
                    Q1x := List.replicate sz 0
                    Q1y := List.replicate sz 0
                    Q2x := List.replicate sz 0
                    Q2y := List.replicate sz 0
                    trace := [PkeEvent.lock,
                              PkeEvent.callPointMul ms1 Q1x1 Q1y1,
                              PkeEvent.callPointMul ms2 Q2x1 Q2y1,
                              PkeEvent.callPointAdd r1.2.1 r1.2.2 r2.2.1 r2.2.2,
                              PkeEvent.unlock] }
                else
                  { ret := 0
                    R := some { X := mbedtls_mpi_read_binary_le R.X r3.2.1
                                Y := mbedtls_mpi_read_binary_le R.Y r3.2.2
                                Z := mbedtls_mpi_lset R.Z 1 }
                    ms := List.replicate sz 0
                    Q1x := List.replicate sz 0
                    Q1y := List.replicate sz 0
                    Q2x := List.replicate sz 0
                    Q2y := List.replicate sz 0
                    trace := [PkeEvent.lock,
                              PkeEvent.callPointMul ms1 Q1x1 Q1y1,
                              PkeEvent.callPointMul ms2 Q2x1 Q2y1,
                              PkeEvent.callPointAdd r1.2.1 r1.2.2 r2.2.1 r2.2.2,
                              PkeEvent.unlock] }
          | none =>
            { ret := MBEDTLS_ERR_PLATFORM_FEATURE_UNSUPPORTED
              R := some R
              ms := List.replicate sz 0
              Q1x := List.replicate sz 0
              Q1y := List.replicate sz 0
              Q2x := List.replicate sz 0
              Q2y := List.replicate sz 0
              trace := [] }
        | _ =>
          { ret := MBEDTLS_ERR_PLATFORM_FEATURE_UNSUPPORTED
            R := some R
            ms := List.replicate sz 0
            Q1x := List.replicate sz 0
            Q1y := List.replicate sz 0
            Q2x := List.replicate sz 0
            Q2y := List.replicate sz 0
            trace := [] }
      else
        { ret := MBEDTLS_ERR_PLATFORM_FEATURE_UNSUPPORTED
          R := some R
          ms := []
          Q1x := []
          Q1y := []
          Q2x := []
          Q2y := []
          trace := [] }
  | _, _, _, _, _, _ =>
    { ret := MBEDTLS_ERR_ECP_BAD_INPUT_DATA
      R := R
      ms := []
      Q1x := []
      Q1y := []
      Q2x := []
      Q2y := []
      trace := [] }

/-!
Values.  `limbsVal` / `bytesVal` give the number denoted by a little-endian
limb list (32-bit limbs) or byte list; they are the reference meaning both
codec directions are measured against.
-/

/-- The number denoted by a little-endian list of 32-bit limbs. -/
def limbsVal : List Nat → Nat
  | [] => 0
  | a :: rest => a + 2 ^ 32 * limbsVal rest

/-- The value of an mpi. -/
def Mpi.val (X : Mpi) : Nat := limbsVal X.p

/-- The number denoted by a little-endian list of bytes. -/
def bytesVal : List Nat → Nat
  | [] => 0
  | b :: rest => b + 2 ^ 8 * bytesVal rest

theorem and_255_eq_mod (a : Nat) : a &&& 255 = a % 256 := by
  have h := Nat.and_pow_two_sub_one_eq_mod a 8
  norm_num at h
  exact h

theorem digit_lo (a v i : Nat) (hi : i < 4) :
    (a + 2 ^ 32 * v) / 2 ^ (8 * i) % 2 ^ 8 = a / 2 ^ (8 * i) % 2 ^ 8 := by
  have h32 : (2 : ℕ) ^ 32 = 2 ^ (8 * i) * 2 ^ (8 + (24 - 8 * i)) := by
    rw [← pow_add]
    congr 1
    omega
  rw [h32, mul_assoc, Nat.add_mul_div_left _ _ (by positivity), pow_add,
      mul_assoc, Nat.add_mul_mod_self_left]

theorem digit_hi (a v i : Nat) (ha : a < 2 ^ 32) (hi : 4 ≤ i) :
    (a + 2 ^ 32 * v) / 2 ^ (8 * i) % 2 ^ 8 = v / 2 ^ (8 * (i - 4)) % 2 ^ 8 := by
  have h : (2 : ℕ) ^ (8 * i) = 2 ^ 32 * 2 ^ (8 * (i - 4)) := by
    rw [← pow_add]
    congr 1
    omega
  rw [h, ← Nat.div_div_eq_div_mul, Nat.add_mul_div_left _ _ (by positivity),
      Nat.div_eq_of_lt ha, Nat.zero_add]

/-- Byte `i` of an mpi whose limbs are in 32-bit range is digit `i` of its
value in base 256. -/
theorem getByte_digit : ∀ (p : List Nat), (∀ l ∈ p, l < 2 ^ 32) → ∀ i : Nat,
    GET_BYTE { p := p } i = limbsVal p / 2 ^ (8 * i) % 2 ^ 8 := by
  intro p
  induction p with
  | nil =>
    intro _ i
    simp [GET_BYTE, limbsVal, ciL, and_255_eq_mod]
  | cons a rest ih =>
    intro hp i
    have ha : a < 2 ^ 32 := hp a (List.mem_cons_self a rest)
    have hrest : ∀ l ∈ rest, l < 2 ^ 32 := fun l hl => hp l (List.mem_cons_of_mem a hl)
    rcases Nat.lt_or_ge i 4 with hi | hi
    · have hdiv : i / 4 = 0 := Nat.div_eq_of_lt hi
      have hmod : i % 4 = i := Nat.mod_eq_of_lt hi
      have hL : GET_BYTE { p := a :: rest } i = a / 2 ^ (8 * i) % 2 ^ 8 := by
        simp only [GET_BYTE, ciL, hdiv, hmod, List.getD_cons_zero,
          Nat.shiftRight_eq_div_pow, and_255_eq_mod, Nat.mul_comm i 8]
        norm_num
      rw [hL, limbsVal, digit_lo a (limbsVal rest) i hi]
    · have hdiv : i / 4 = (i - 4) / 4 + 1 := by omega
      have hmod : i % 4 = (i - 4) % 4 := by omega
      have hL : GET_BYTE { p := a :: rest } i = GET_BYTE { p := rest } (i - 4) := by
        simp only [GET_BYTE, ciL, hdiv, hmod, List.getD_cons_succ]
      rw [hL, ih hrest (i - 4), limbsVal, digit_hi a (limbsVal rest) i ha hi]

/-- Bytes at or beyond the stored size of an mpi read as zero. -/
theorem getByte_zero_of_ge (X : Mpi) (i : Nat) (h : X.n * ciL ≤ i) :
    GET_BYTE X i = 0 := by
  have hlen : X.p.length ≤ i / 4 := by
    have : X.p.length * 4 ≤ i := h
    omega
  have hD : X.p.getD (i / ciL) 0 = 0 := by
    rw [List.getD_eq_default]
    exact hlen
  unfold GET_BYTE
  rw [hD]
  simp [and_255_eq_mod]

/-- The base-256 digit reconstruction law: the low `k` digits of `v` denote
`v mod 2^(8k)`. -/
theorem bytesVal_digits : ∀ (k v : Nat),
    bytesVal ((List.range k).map (fun i => v / 2 ^ (8 * i) % 2 ^ 8)) = v % 2 ^ (8 * k) := by
  intro k
  induction k with
  | zero =>
    intro v
    simp [bytesVal, Nat.mod_one]
  | succ k ih =>
    intro v
    rw [List.range_succ_eq_map, List.map_cons, List.map_map, bytesVal]
    have hmap : (List.range k).map ((fun i => v / 2 ^ (8 * i) % 2 ^ 8) ∘ Nat.succ) =
        (List.range k).map (fun i => v / 2 ^ 8 / 2 ^ (8 * i) % 2 ^ 8) := by
      apply List.map_congr_left
      intro i _
      simp only [Function.comp_apply]
      rw [Nat.div_div_eq_div_mul, ← pow_add,
          show 8 + 8 * i = 8 * Nat.succ i by omega]
    rw [hmap, ih]
    have h1 : (2 : ℕ) ^ (8 * (k + 1)) = 2 ^ 8 * 2 ^ (8 * k) := by
      rw [← pow_add]
      congr 1
      omega
    rw [h1, Nat.mod_mul]
    norm_num

/-- `bytesToLimbs` preserves the denoted value. -/
theorem limbsVal_bytesToLimbs : ∀ bs : List Nat, limbsVal (bytesToLimbs bs) = bytesVal bs := by
  intro bs
  induction bs using bytesToLimbs.induct with
  | case1 => rfl
  | case2 b0 =>
    simp only [bytesToLimbs, limbsVal, bytesVal]
    ring
  | case3 b0 b1 =>
    simp only [bytesToLimbs, limbsVal, bytesVal]
    ring
  | case4 b0 b1 b2 =>
    simp only [bytesToLimbs, limbsVal, bytesVal]
    ring
  | case5 b0 b1 b2 b3 rest ih =>
    simp only [bytesToLimbs, limbsVal, bytesVal, ih]
    ring

/-- `bytesToLimbs` produces exactly `CHARS_TO_LIMBS` limbs. -/
theorem length_bytesToLimbs : ∀ bs : List Nat,
    (bytesToLimbs bs).length = CHARS_TO_LIMBS bs.length := by
  intro bs
  induction bs using bytesToLimbs.induct with
  | case1 => simp [bytesToLimbs, CHARS_TO_LIMBS, ciL]
  | case2 b0 => simp [bytesToLimbs, CHARS_TO_LIMBS, ciL]
  | case3 b0 b1 => simp [bytesToLimbs, CHARS_TO_LIMBS, ciL]
  | case4 b0 b1 b2 => simp [bytesToLimbs, CHARS_TO_LIMBS, ciL]
  | case5 b0 b1 b2 b3 rest ih =>
    simp only [bytesToLimbs, List.length_cons, ih, CHARS_TO_LIMBS, ciL]
    split <;> split <;> omega

/-- The bytes produced by a successful `mbedtls_mpi_write_binary_le` are
exactly bytes `0 .. buflen-1` of the source mpi (bytes past its stored size
reading as zero). -/
theorem write_ok_bytes (X : Mpi) (buf : List Nat)
    (h : (mbedtls_mpi_write_binary_le X buf).1 = 0) :
    (mbedtls_mpi_write_binary_le X buf).2 = (List.range buf.length).map (GET_BYTE X) := by
  by_cases hlt : X.n * ciL < buf.length
  · have hval : mbedtls_mpi_write_binary_le X buf =
        (0, (List.range (X.n * ciL)).map (GET_BYTE X) ++
            List.replicate (buf.length - X.n * ciL) 0) := by
      unfold mbedtls_mpi_write_binary_le
      simp [hlt]
    rw [hval]
    apply List.ext_getElem
    · simp
      omega
    · intro i h1 h2
      simp only [List.getElem_map, List.getElem_range]
      by_cases hi : i < X.n * ciL
      · rw [List.getElem_append_left (by simpa using hi)]
        simp
      · rw [List.getElem_append_right (by simpa using hi)]
        simp only [List.getElem_replicate]
        exact (getByte_zero_of_ge X i (Nat.le_of_not_lt hi)).symm
  · by_cases hex : ∃ i ∈ Finset.Ico buf.length (X.n * ciL), GET_BYTE X i ≠ 0
    · exfalso
      have hval : (mbedtls_mpi_write_binary_le X buf).1 = MBEDTLS_ERR_MPI_BUFFER_TOO_SMALL := by
        unfold mbedtls_mpi_write_binary_le
        simp only [if_neg hlt]
        rw [if_pos hex]
      rw [hval] at h
      exact absurd h (by decide)
    · unfold mbedtls_mpi_write_binary_le
      simp only [if_neg hlt]
      rw [if_neg hex]

theorem write_le_eq_of_lt (X : Mpi) (buf : List Nat) (hlt : X.n * ciL < buf.length) :
    mbedtls_mpi_write_binary_le X buf =
      (0, (List.range (X.n * ciL)).map (GET_BYTE X) ++
          List.replicate (buf.length - X.n * ciL) 0) := by
  unfold mbedtls_mpi_write_binary_le
  simp [hlt]

theorem write_le_eq_of_fail (X : Mpi) (buf : List Nat) (hlt : ¬X.n * ciL < buf.length)
    (hex : ∃ i ∈ Finset.Ico buf.length (X.n * ciL), GET_BYTE X i ≠ 0) :
    mbedtls_mpi_write_binary_le X buf = (MBEDTLS_ERR_MPI_BUFFER_TOO_SMALL, buf) := by
  unfold mbedtls_mpi_write_binary_le
  simp only [if_neg hlt]
  rw [if_pos hex]

theorem write_le_eq_of_ok (X : Mpi) (buf : List Nat) (hlt : ¬X.n * ciL < buf.length)
    (hex : ¬∃ i ∈ Finset.Ico buf.length (X.n * ciL), GET_BYTE X i ≠ 0) :
    mbedtls_mpi_write_binary_le X buf = (0, (List.range buf.length).map (GET_BYTE X)) := by
  unfold mbedtls_mpi_write_binary_le
  simp only [if_neg hlt]
  rw [if_neg hex]

/-- C2: `mbedtls_mpi_write_binary_le` fails with `MBEDTLS_ERR_MPI_BUFFER_TOO_SMALL`
iff some stored byte of the source beyond the destination width is nonzero;
when every such excess byte is zero it succeeds, copying the low bytes and
zero-filling the remainder of the destination. -/
theorem write_binary_le_too_small_iff (X : Mpi) (buf : List Nat) :
    ((mbedtls_mpi_write_binary_le X buf).1 = MBEDTLS_ERR_MPI_BUFFER_TOO_SMALL ↔
      ∃ i ∈ Finset.Ico buf.length (X.n * ciL), GET_BYTE X i ≠ 0) ∧
    ((∀ i ∈ Finset.Ico buf.length (X.n * ciL), GET_BYTE X i = 0) →
      (mbedtls_mpi_write_binary_le X buf).1 = 0 ∧
      (mbedtls_mpi_write_binary_le X buf).2 =
        (List.range (min (X.n * ciL) buf.length)).map (GET_BYTE X) ++
          List.replicate (buf.length - min (X.n * ciL) buf.length) 0) := by
  constructor
  · by_cases hlt : X.n * ciL < buf.length
    · rw [write_le_eq_of_lt X buf hlt]
      refine iff_of_false (by norm_num [MBEDTLS_ERR_MPI_BUFFER_TOO_SMALL]) ?_
      rintro ⟨i, hi, -⟩
      rw [Finset.mem_Ico] at hi
      omega
    · by_cases hex : ∃ i ∈ Finset.Ico buf.length (X.n * ciL), GET_BYTE X i ≠ 0
      · rw [write_le_eq_of_fail X buf hlt hex]
        exact iff_of_true rfl hex
      · rw [write_le_eq_of_ok X buf hlt hex]
        exact iff_of_false (by norm_num [MBEDTLS_ERR_MPI_BUFFER_TOO_SMALL]) hex
  · intro hall
    have hex : ¬∃ i ∈ Finset.Ico buf.length (X.n * ciL), GET_BYTE X i ≠ 0 := by
      rintro ⟨i, hi, hne⟩
      exact hne (hall i hi)
    by_cases hlt : X.n * ciL < buf.length
    · rw [write_le_eq_of_lt X buf hlt]
      refine ⟨rfl, ?_⟩
      rw [Nat.min_eq_left (Nat.le_of_lt hlt)]
    · rw [write_le_eq_of_ok X buf hlt hex]
      refine ⟨rfl, ?_⟩
      rw [Nat.min_eq_right (Nat.le_of_not_lt hlt)]
      simp

/-- Witness for C2 at a concrete input: `X = 5` stored in two limbs written
into a 4-byte buffer; the excess bytes are zero, so the copy succeeds. -/
theorem write_binary_le_too_small_iff_witness :
    (mbedtls_mpi_write_binary_le { p := [5, 0] } [9, 9, 9, 9]).1 = 0 ∧
    (mbedtls_mpi_write_binary_le { p := [5, 0] } [9, 9, 9, 9]).2 =
      (List.range (min ((Mpi.mk [5, 0]).n * ciL) (List.length [9, 9, 9, 9]))).map
          (GET_BYTE { p := [5, 0] }) ++
        List.replicate (List.length [9, 9, 9, 9] -
          min ((Mpi.mk [5, 0]).n * ciL) (List.length [9, 9, 9, 9])) 0 :=
  (write_binary_le_too_small_iff { p := [5, 0] } [9, 9, 9, 9]).2 (by decide)

/-- Evaluation form of `mbedtls_mpi_read_binary_le`: the result does not
depend on the previous contents of the destination. -/
theorem read_binary_le_eval (X : Mpi) (buf : List Nat) :
    mbedtls_mpi_read_binary_le X buf =
      if buf.isEmpty then { p := [0] } else { p := bytesToLimbs buf } := by
  rcases buf with _ | ⟨b, bs⟩
  · simp only [mbedtls_mpi_read_binary_le, mbedtls_mpi_lset, List.isEmpty_nil, if_true]
    by_cases h : X.p.length ≠ CHARS_TO_LIMBS (List.length ([] : List Nat))
    · rw [if_pos h]
      rfl
    · rw [if_neg h]
      push_neg at h
      have h0 : X.p.length = 0 := by simpa [CHARS_TO_LIMBS, ciL] using h
      rw [h0]
      rfl
  · simp only [mbedtls_mpi_read_binary_le, List.isEmpty_cons]
    rw [if_neg (by simp), if_neg (by simp)]

/-- C3: round-trip law.  For every mpi `v` with limbs in 32-bit range and
every destination wide enough to hold its value, the little-endian encode
succeeds and decoding the produced buffer (into any destination mpi)
reproduces the value of `v` exactly. -/
theorem decode_encode_roundtrip (v : Mpi) (buf : List Nat) (X : Mpi)
    (hp : ∀ l ∈ v.p, l < 2 ^ 32) (hw : v.val < 2 ^ (8 * buf.length)) :
    (mbedtls_mpi_write_binary_le v buf).1 = 0 ∧
    (mbedtls_mpi_read_binary_le X (mbedtls_mpi_write_binary_le v buf).2).val = v.val := by
  have hb : ∀ i : Nat, GET_BYTE v i = v.val / 2 ^ (8 * i) % 2 ^ 8 :=
    getByte_digit v.p hp
  have hzero : ∀ i : Nat, buf.length ≤ i → GET_BYTE v i = 0 := by
    intro i hi
    rw [hb i]
    have hv : v.val < 2 ^ (8 * i) :=
      lt_of_lt_of_le hw (Nat.pow_le_pow_right (by norm_num) (by omega))
    rw [Nat.div_eq_of_lt hv]
    rfl
  have hex : ¬∃ i ∈ Finset.Ico buf.length (v.n * ciL), GET_BYTE v i ≠ 0 := by
    rintro ⟨i, hi, hne⟩
    exact hne (hzero i (Finset.mem_Ico.mp hi).1)
  have hret : (mbedtls_mpi_write_binary_le v buf).1 = 0 := by
    by_cases hlt : v.n * ciL < buf.length
    · rw [write_le_eq_of_lt v buf hlt]
    · rw [write_le_eq_of_ok v buf hlt hex]
  refine ⟨hret, ?_⟩
  rw [write_ok_bytes v buf hret, read_binary_le_eval]
  rcases buf with _ | ⟨b, bs⟩
  · have hv0 : v.val = 0 := by
      have := hw
      norm_num at this
      omega
    simp [Mpi.val, limbsVal]
    exact hv0.symm
  · have hne : ¬((List.range (b :: bs).length).map (GET_BYTE v)).isEmpty = true := by
      simp [List.range_succ_eq_map]
    rw [if_neg hne]
    show limbsVal (bytesToLimbs ((List.range (b :: bs).length).map (GET_BYTE v))) = v.val
    rw [limbsVal_bytesToLimbs]
    have hmap : (List.range (b :: bs).length).map (GET_BYTE v) =
        (List.range (b :: bs).length).map (fun i => v.val / 2 ^ (8 * i) % 2 ^ 8) :=
      List.map_congr_left (fun i _ => hb i)
    rw [hmap, bytesVal_digits]
    exact Nat.mod_eq_of_lt hw

/-- Witness for C3 at a concrete input: `v = 5 + 7·2^32` into an 8-byte
buffer, decoded over a stale destination mpi. -/
theorem decode_encode_roundtrip_witness :
    (mbedtls_mpi_write_binary_le { p := [5, 7] } [9, 9, 9, 9, 9, 9, 9, 9]).1 = 0 ∧
    (mbedtls_mpi_read_binary_le { p := [3, 4, 5] }
      (mbedtls_mpi_write_binary_le { p := [5, 7] } [9, 9, 9, 9, 9, 9, 9, 9]).2).val =
      (Mpi.mk [5, 7]).val :=
  decode_encode_roundtrip { p := [5, 7] } [9, 9, 9, 9, 9, 9, 9, 9] { p := [3, 4, 5] }
    (by decide) (by decide)

/-- C4 (amended): `mbedtls_mpi_read_binary_le` produces an mpi whose value is
exactly the little-endian value of the buffer, whose limb count is exactly
`CHARS_TO_LIMBS buflen` (at least one limb), and which is independent of the
previous contents of the destination (the storage is resized and cleared
first, never appended to). -/
theorem read_binary_le_spec (X : Mpi) (buf : List Nat) :
    (mbedtls_mpi_read_binary_le X buf).val = bytesVal buf ∧
    (mbedtls_mpi_read_binary_le X buf).n = max (CHARS_TO_LIMBS buf.length) 1 ∧
    mbedtls_mpi_read_binary_le X buf = mbedtls_mpi_read_binary_le { p := [] } buf := by
  rw [read_binary_le_eval, read_binary_le_eval]
  rcases buf with _ | ⟨b, bs⟩
  · refine ⟨rfl, ?_, rfl⟩
    rfl
  · refine ⟨?_, ?_, rfl⟩
    · show limbsVal (bytesToLimbs (b :: bs)) = bytesVal (b :: bs)
      exact limbsVal_bytesToLimbs (b :: bs)
    · show (bytesToLimbs (b :: bs)).length = max (CHARS_TO_LIMBS (b :: bs).length) 1
      rw [length_bytesToLimbs]
      have h1 : 1 ≤ CHARS_TO_LIMBS (b :: bs).length := by
        simp only [CHARS_TO_LIMBS, List.length_cons, ciL]
        split <;> omega
      omega

/-- Counterexample to C4 as stated: decoding the 8-byte buffer holding the
value 1 yields an mpi with 2 limbs, although the single-limb list `[1]`
already holds that value — the decoder normalizes to the buffer's word count,
not to the minimal word count needed to hold the value. -/
theorem read_binary_le_not_value_minimal :
    (mbedtls_mpi_read_binary_le { p := [] } [1, 0, 0, 0, 0, 0, 0, 0]).n = 2 ∧
    limbsVal [1] = (mbedtls_mpi_read_binary_le { p := [] } [1, 0, 0, 0, 0, 0, 0, 0]).val ∧
    List.length [1] < 2 := by
  decide

/-- A point with both coordinates present (classifies as short-Weierstrass
when used as a generator). -/
def examplePoint : mbedtls_ecp_point :=
  { X := { p := [1] }
    Y := { p := [1] }
    Z := { p := [1] } }

/-- A secp256r1 group handle. -/
def secp256r1_group : mbedtls_ecp_group :=
  { id := mbedtls_ecp_group_id.MBEDTLS_ECP_DP_SECP256R1
    pbits := 256
    G := examplePoint }

/-- A secp521r1 group handle: word length 17 exceeds the accelerator bound. -/
def secp521r1_group : mbedtls_ecp_group :=
  { id := mbedtls_ecp_group_id.MBEDTLS_ECP_DP_SECP521R1
    pbits := 521
    G := examplePoint }

/-- A group that classifies as short-Weierstrass but whose id resolves in
neither registry. -/
def unknown_sw_group : mbedtls_ecp_group :=
  { id := mbedtls_ecp_group_id.MBEDTLS_ECP_DP_NONE
    pbits := 192
    G := examplePoint }

/-- A curve25519 group handle: its generator has no Y coordinate, so it
classifies as Montgomery. -/
def curve25519_group : mbedtls_ecp_group :=
  { id := mbedtls_ecp_group_id.MBEDTLS_ECP_DP_CURVE25519
    pbits := 255
    G := { X := { p := [9] }, Y := { p := [] }, Z := { p := [1] } } }

/-- A group that classifies as Montgomery but whose id is not in the
Montgomery registry. -/
def unknown_mont_group : mbedtls_ecp_group :=
  { id := mbedtls_ecp_group_id.MBEDTLS_ECP_DP_SECP256R1
    pbits := 255
    G := { X := { p := [9] }, Y := { p := [] }, Z := { p := [1] } } }

/-- An engine whose every call succeeds, echoing its input buffers. -/
def okEngine : PkeEngine :=
  { point_verify := fun _ _ _ => 0
    point_mul := fun _ _ x y => (0, x, y)
    point_add := fun _ x1 y1 _ _ => (0, x1, y1)
    x25519_point_mul := fun _ _ x => (0, x) }

/-- An engine whose every call reports an internal fault (code 4, distinct
from both success and a plain not-on-curve answer). -/
def faultEngine : PkeEngine :=
  { point_verify := fun _ _ _ => 4
    point_mul := fun _ _ x y => (4, x, y)
    point_add := fun _ x1 y1 _ _ => (4, x1, y1)
    x25519_point_mul := fun _ _ x => (4, x) }

/-- C1 (amended): on a registered short-Weierstrass curve within the operand
bound and with non-null arguments, `check_pubkey` returns 0 exactly when the
engine answers `PKE_SUCCESS`, and returns `InvalidKey` for every other engine
answer — whether the point is not on the curve or the engine reports an
internal fault. -/
theorem check_pubkey_engine_mapping (eng : PkeEngine) (g : mbedtls_ecp_group)
    (pt : mbedtls_ecp_point) (c : eccp_curve_t) (initQx initQy : List Nat)
    (hsw : ecp_get_type g = ecp_curve_type.ECP_TYPE_SHORT_WEIERSTRASS)
    (hc : eccp_curve_get g = some c)
    (hlen : GET_WORD_LEN g.pbits ≤ PKE_OPERAND_MAX_WORD_LEN) :
    (ecp_alt_b91_backend_check_pubkey eng (some g) (some pt) initQx initQy).ret =
      (if eng.point_verify c
            (mbedtls_mpi_write_binary_le pt.X (vla (4 * GET_WORD_LEN g.pbits) initQx)).2
            (mbedtls_mpi_write_binary_le pt.Y (vla (4 * GET_WORD_LEN g.pbits) initQy)).2
          = PKE_SUCCESS
       then 0 else MBEDTLS_ERR_ECP_INVALID_KEY) := by
  simp only [ecp_alt_b91_backend_check_pubkey, if_pos hlen, hsw, hc]

/-- Witness for C1 at a concrete input: the always-succeeding engine on
secp256r1. -/
theorem check_pubkey_engine_mapping_witness :
    (ecp_alt_b91_backend_check_pubkey okEngine (some secp256r1_group)
        (some examplePoint) [] []).ret =
      (if okEngine.point_verify secp256r1
            (mbedtls_mpi_write_binary_le examplePoint.X
              (vla (4 * GET_WORD_LEN secp256r1_group.pbits) [])).2
            (mbedtls_mpi_write_binary_le examplePoint.Y
              (vla (4 * GET_WORD_LEN secp256r1_group.pbits) [])).2
          = PKE_SUCCESS
       then 0 else MBEDTLS_ERR_ECP_INVALID_KEY) :=
  check_pubkey_engine_mapping okEngine secp256r1_group examplePoint secp256r1 [] []
    (by decide) (by decide) (by decide)

/-- Counterexample to C1 as stated: with an engine reporting an internal
fault, `check_pubkey` on secp256r1 returns `InvalidKey`, not
`UnsupportedFeature` as the claim requires. -/
theorem check_pubkey_fault_not_unsupported :
    (ecp_alt_b91_backend_check_pubkey faultEngine (some secp256r1_group)
        (some examplePoint) [] []).ret = MBEDTLS_ERR_ECP_INVALID_KEY ∧
    MBEDTLS_ERR_ECP_INVALID_KEY ≠ MBEDTLS_ERR_PLATFORM_FEATURE_UNSUPPORTED := by
  decide

/-- C7: on a Montgomery-classified group (generator with X but no Y), both
`check_pubkey` and `muladd` return `UnsupportedFeature`. -/
theorem montgomery_unsupported (eng : PkeEngine) (g : mbedtls_ecp_group)
    (pt R P Q : mbedtls_ecp_point) (m n : Mpi)
    (i1 i2 j1 j2 j3 j4 j5 : List Nat)
    (hm : ecp_get_type g = ecp_curve_type.ECP_TYPE_MONTGOMERY) :
    (ecp_alt_b91_backend_check_pubkey eng (some g) (some pt) i1 i2).ret =
      MBEDTLS_ERR_PLATFORM_FEATURE_UNSUPPORTED ∧
    (ecp_alt_b91_backend_muladd eng (some g) (some R) (some m) (some P) (some n)
        (some Q) j1 j2 j3 j4 j5).ret =
      MBEDTLS_ERR_PLATFORM_FEATURE_UNSUPPORTED := by
  constructor
  · simp only [ecp_alt_b91_backend_check_pubkey, hm]
    split <;> rfl
  · simp only [ecp_alt_b91_backend_muladd, hm]
    split <;> rfl

/-- Witness for C7 at a concrete input: curve25519 group. -/
theorem montgomery_unsupported_witness :
    (ecp_alt_b91_backend_check_pubkey okEngine (some curve25519_group)
        (some examplePoint) [] []).ret = MBEDTLS_ERR_PLATFORM_FEATURE_UNSUPPORTED ∧
    (ecp_alt_b91_backend_muladd okEngine (some curve25519_group) (some examplePoint)
        (some { p := [2] }) (some examplePoint) (some { p := [3] }) (some examplePoint)
        [] [] [] [] []).ret = MBEDTLS_ERR_PLATFORM_FEATURE_UNSUPPORTED :=
  montgomery_unsupported okEngine curve25519_group examplePoint examplePoint
    examplePoint examplePoint { p := [2] } { p := [3] } [] [] [] [] [] [] []
    (by decide)

theorem check_pubkey_eq_of_wide (eng : PkeEngine) (g : mbedtls_ecp_group)
    (pt : mbedtls_ecp_point) (i1 i2 : List Nat)
    (h : ¬GET_WORD_LEN g.pbits ≤ PKE_OPERAND_MAX_WORD_LEN) :
    ecp_alt_b91_backend_check_pubkey eng (some g) (some pt) i1 i2 =
      { ret := MBEDTLS_ERR_PLATFORM_FEATURE_UNSUPPORTED, Qx := [], Qy := [], trace := [] } := by
  simp only [ecp_alt_b91_backend_check_pubkey, if_neg h]

theorem mul_eq_of_wide (eng : PkeEngine) (g : mbedtls_ecp_group)
    (R : mbedtls_ecp_point) (m : Mpi) (P : mbedtls_ecp_point) (i1 i2 i3 : List Nat)
    (h : ¬GET_WORD_LEN g.pbits ≤ PKE_OPERAND_MAX_WORD_LEN) :
    ecp_alt_b91_backend_mul eng (some g) (some R) (some m) (some P) i1 i2 i3 =
      { ret := MBEDTLS_ERR_PLATFORM_FEATURE_UNSUPPORTED, R := some R,
        ms := [], Qx := [], Qy := [], trace := [] } := by
  simp only [ecp_alt_b91_backend_mul, if_neg h]

theorem muladd_eq_of_wide (eng : PkeEngine) (g : mbedtls_ecp_group)
    (R : mbedtls_ecp_point) (m : Mpi) (P : mbedtls_ecp_point)
    (n : Mpi) (Q : mbedtls_ecp_point) (i1 i2 i3 i4 i5 : List Nat)
    (h : ¬GET_WORD_LEN g.pbits ≤ PKE_OPERAND_MAX_WORD_LEN) :
    ecp_alt_b91_backend_muladd eng (some g) (some R) (some m) (some P) (some n)
        (some Q) i1 i2 i3 i4 i5 =
      { ret := MBEDTLS_ERR_PLATFORM_FEATURE_UNSUPPORTED, R := some R,
        ms := [], Q1x := [], Q1y := [], Q2x := [], Q2y := [], trace := [] } := by
  simp only [ecp_alt_b91_backend_muladd, if_neg h]

/-- C5: shared dispatcher preconditions.  A null argument yields
`InvalidInput` with an empty event trace (no lock, no engine call); with
non-null arguments, an operand width above the accelerator bound, or a curve
that does not resolve in the registry of its classified family, yields
`UnsupportedFeature`, again with an empty event trace. -/
theorem dispatcher_preconditions (eng : PkeEngine)
    (grp0 : Option mbedtls_ecp_group) (pt0 R0 P0 Q0 : Option mbedtls_ecp_point)
    (m0 n0 : Option Mpi) (g : mbedtls_ecp_group)
    (pt R P Q : mbedtls_ecp_point) (m n : Mpi) (i1 i2 i3 i4 i5 : List Nat) :
    ((grp0 = none ∨ pt0 = none) →
      (ecp_alt_b91_backend_check_pubkey eng grp0 pt0 i1 i2).ret =
        MBEDTLS_ERR_ECP_BAD_INPUT_DATA ∧
      (ecp_alt_b91_backend_check_pubkey eng grp0 pt0 i1 i2).trace = []) ∧
    ((grp0 = none ∨ R0 = none ∨ m0 = none ∨ P0 = none) →
      (ecp_alt_b91_backend_mul eng grp0 R0 m0 P0 i1 i2 i3).ret =
        MBEDTLS_ERR_ECP_BAD_INPUT_DATA ∧
      (ecp_alt_b91_backend_mul eng grp0 R0 m0 P0 i1 i2 i3).trace = []) ∧
    ((grp0 = none ∨ R0 = none ∨ m0 = none ∨ P0 = none ∨ n0 = none ∨ Q0 = none) →
      (ecp_alt_b91_backend_muladd eng grp0 R0 m0 P0 n0 Q0 i1 i2 i3 i4 i5).ret =
        MBEDTLS_ERR_ECP_BAD_INPUT_DATA ∧
      (ecp_alt_b91_backend_muladd eng grp0 R0 m0 P0 n0 Q0 i1 i2 i3 i4 i5).trace = []) ∧
    (PKE_OPERAND_MAX_WORD_LEN < GET_WORD_LEN g.pbits →
      (ecp_alt_b91_backend_check_pubkey eng (some g) (some pt) i1 i2).ret =
        MBEDTLS_ERR_PLATFORM_FEATURE_UNSUPPORTED ∧
      (ecp_alt_b91_backend_check_pubkey eng (some g) (some pt) i1 i2).trace = [] ∧
      (ecp_alt_b91_backend_mul eng (some g) (some R) (some m) (some P) i1 i2 i3).ret =
        MBEDTLS_ERR_PLATFORM_FEATURE_UNSUPPORTED ∧
      (ecp_alt_b91_backend_mul eng (some g) (some R) (some m) (some P) i1 i2 i3).trace = [] ∧
      (ecp_alt_b91_backend_muladd eng (some g) (some R) (some m) (some P) (some n)
          (some Q) i1 i2 i3 i4 i5).ret = MBEDTLS_ERR_PLATFORM_FEATURE_UNSUPPORTED ∧
      (ecp_alt_b91_backend_muladd eng (some g) (some R) (some m) (some P) (some n)
          (some Q) i1 i2 i3 i4 i5).trace = []) ∧
    (GET_WORD_LEN g.pbits ≤ PKE_OPERAND_MAX_WORD_LEN →
      (ecp_get_type g = ecp_curve_type.ECP_TYPE_SHORT_WEIERSTRASS →
        eccp_curve_get g = none →
        (ecp_alt_b91_backend_check_pubkey eng (some g) (some pt) i1 i2).ret =
          MBEDTLS_ERR_PLATFORM_FEATURE_UNSUPPORTED ∧
        (ecp_alt_b91_backend_check_pubkey eng (some g) (some pt) i1 i2).trace = [] ∧
        (ecp_alt_b91_backend_mul eng (some g) (some R) (some m) (some P) i1 i2 i3).ret =
          MBEDTLS_ERR_PLATFORM_FEATURE_UNSUPPORTED ∧
        (ecp_alt_b91_backend_mul eng (some g) (some R) (some m) (some P) i1 i2 i3).trace = [] ∧
        (ecp_alt_b91_backend_muladd eng (some g) (some R) (some m) (some P) (some n)
            (some Q) i1 i2 i3 i4 i5).ret = MBEDTLS_ERR_PLATFORM_FEATURE_UNSUPPORTED ∧
        (ecp_alt_b91_backend_muladd eng (some g) (some R) (some m) (some P) (some n)
            (some Q) i1 i2 i3 i4 i5).trace = []) ∧
      (ecp_get_type g = ecp_curve_type.ECP_TYPE_MONTGOMERY →
        mont_curve_get g = none →
        (ecp_alt_b91_backend_mul eng (some g) (some R) (some m) (some P) i1 i2 i3).ret =
          MBEDTLS_ERR_PLATFORM_FEATURE_UNSUPPORTED ∧
        (ecp_alt_b91_backend_mul eng (some g) (some R) (some m) (some P) i1 i2 i3).trace = [])) := by
  refine ⟨?_, ?_, ?_, ?_, ?_⟩
  · rintro (rfl | rfl)
    · exact ⟨rfl, rfl⟩
    · cases grp0 <;> exact ⟨rfl, rfl⟩
  · rintro (rfl | rfl | rfl | rfl)
    · exact ⟨rfl, rfl⟩
    · cases grp0 <;> exact ⟨rfl, rfl⟩
    · cases grp0 <;> cases R0 <;> exact ⟨rfl, rfl⟩
    · cases grp0 <;> cases R0 <;> cases m0 <;> exact ⟨rfl, rfl⟩
  · rintro (rfl | rfl | rfl | rfl | rfl | rfl)
    · exact ⟨rfl, rfl⟩
    · cases grp0 <;> exact ⟨rfl, rfl⟩
    · cases grp0 <;> cases R0 <;> exact ⟨rfl, rfl⟩
    · cases grp0 <;> cases R0 <;> cases m0 <;> exact ⟨rfl, rfl⟩
    · cases grp0 <;> cases R0 <;> cases m0 <;> cases P0 <;> exact ⟨rfl, rfl⟩
    · cases grp0 <;> cases R0 <;> cases m0 <;> cases P0 <;> cases n0 <;> exact ⟨rfl, rfl⟩
  · intro hwide
    have h : ¬GET_WORD_LEN g.pbits ≤ PKE_OPERAND_MAX_WORD_LEN := by omega
    rw [check_pubkey_eq_of_wide eng g pt i1 i2 h,
        mul_eq_of_wide eng g R m P i1 i2 i3 h,
        muladd_eq_of_wide eng g R m P n Q i1 i2 i3 i4 i5 h]
    exact ⟨rfl, rfl, rfl, rfl, rfl, rfl⟩
  · intro hlen
    constructor
    · intro hsw hnone
      have e1 : ecp_alt_b91_backend_check_pubkey eng (some g) (some pt) i1 i2 =
          { ret := MBEDTLS_ERR_PLATFORM_FEATURE_UNSUPPORTED
            Qx := List.replicate (4 * GET_WORD_LEN g.pbits) 0
            Qy := List.replicate (4 * GET_WORD_LEN g.pbits) 0
            trace := [] } := by
        simp only [ecp_alt_b91_backend_check_pubkey, if_pos hlen, hsw, hnone]
      have e2 : ecp_alt_b91_backend_mul eng (some g) (some R) (some m) (some P) i1 i2 i3 =
          { ret := MBEDTLS_ERR_PLATFORM_FEATURE_UNSUPPORTED
            R := some R
            ms := List.replicate (4 * GET_WORD_LEN g.pbits) 0
            Qx := List.replicate (4 * GET_WORD_LEN g.pbits) 0
            Qy := List.replicate (4 * GET_WORD_LEN g.pbits) 0
            trace := [] } := by
        simp only [ecp_alt_b91_backend_mul, if_pos hlen, hsw, hnone]
      have e3 : ecp_alt_b91_backend_muladd eng (some g) (some R) (some m) (some P)
          (some n) (some Q) i1 i2 i3 i4 i5 =
          { ret := MBEDTLS_ERR_PLATFORM_FEATURE_UNSUPPORTED
            R := some R
            ms := List.replicate (4 * GET_WORD_LEN g.pbits) 0
            Q1x := List.replicate (4 * GET_WORD_LEN g.pbits) 0
            Q1y := List.replicate (4 * GET_WORD_LEN g.pbits) 0
            Q2x := List.replicate (4 * GET_WORD_LEN g.pbits) 0
            Q2y := List.replicate (4 * GET_WORD_LEN g.pbits) 0
            trace := [] } := by
        simp only [ecp_alt_b91_backend_muladd, if_pos hlen, hsw, hnone]
      rw [e1, e2, e3]
      exact ⟨rfl, rfl, rfl, rfl, rfl, rfl⟩
    · intro hmont hnone
      have e2 : ecp_alt_b91_backend_mul eng (some g) (some R) (some m) (some P) i1 i2 i3 =
          { ret := MBEDTLS_ERR_PLATFORM_FEATURE_UNSUPPORTED
            R := some R
            ms := List.replicate (4 * GET_WORD_LEN g.pbits) 0
            Qx := List.replicate (4 * GET_WORD_LEN g.pbits) 0
            Qy := List.replicate (4 * GET_WORD_LEN g.pbits) 0
            trace := [] } := by
        simp only [ecp_alt_b91_backend_mul, if_pos hlen, hmont, hnone]
      rw [e2]
      exact ⟨rfl, rfl⟩

/-- Witness for C5 at concrete inputs: a null group, an oversized curve
(secp521r1), a short-Weierstrass group outside the registry, and a
Montgomery group outside the registry. -/
theorem dispatcher_preconditions_witness :
    ((ecp_alt_b91_backend_check_pubkey okEngine none (some examplePoint) [] []).ret =
        MBEDTLS_ERR_ECP_BAD_INPUT_DATA ∧
      (ecp_alt_b91_backend_check_pubkey okEngine none (some examplePoint) [] []).trace = []) ∧
    ((ecp_alt_b91_backend_mul okEngine (some secp256r1_group) none (some { p := [2] })
        (some examplePoint) [] [] []).ret = MBEDTLS_ERR_ECP_BAD_INPUT_DATA ∧
      (ecp_alt_b91_backend_mul okEngine (some secp256r1_group) none (some { p := [2] })
        (some examplePoint) [] [] []).trace = []) ∧
    ((ecp_alt_b91_backend_muladd okEngine (some secp256r1_group) (some examplePoint)
        (some { p := [2] }) (some examplePoint) none (some examplePoint)
        [] [] [] [] []).ret = MBEDTLS_ERR_ECP_BAD_INPUT_DATA ∧
      (ecp_alt_b91_backend_muladd okEngine (some secp256r1_group) (some examplePoint)
        (some { p := [2] }) (some examplePoint) none (some examplePoint)
        [] [] [] [] []).trace = []) ∧
    ((ecp_alt_b91_backend_check_pubkey okEngine (some secp521r1_group)
        (some examplePoint) [] []).ret = MBEDTLS_ERR_PLATFORM_FEATURE_UNSUPPORTED ∧
      (ecp_alt_b91_backend_check_pubkey okEngine (some secp521r1_group)
        (some examplePoint) [] []).trace = []) ∧
    ((ecp_alt_b91_backend_check_pubkey okEngine (some unknown_sw_group)
        (some examplePoint) [] []).ret = MBEDTLS_ERR_PLATFORM_FEATURE_UNSUPPORTED ∧
      (ecp_alt_b91_backend_check_pubkey okEngine (some unknown_sw_group)
        (some examplePoint) [] []).trace = []) ∧
    ((ecp_alt_b91_backend_mul okEngine (some unknown_mont_group) (some examplePoint)
        (some { p := [2] }) (some examplePoint) [] [] []).ret =
        MBEDTLS_ERR_PLATFORM_FEATURE_UNSUPPORTED ∧
      (ecp_alt_b91_backend_mul okEngine (some unknown_mont_group) (some examplePoint)
        (some { p := [2] }) (some examplePoint) [] [] []).trace = []) := by
  refine ⟨?_, ?_, ?_, ?_, ?_, ?_⟩
  · exact (dispatcher_preconditions okEngine none (some examplePoint) (some examplePoint)
      (some examplePoint) (some examplePoint) (some { p := [2] }) (some { p := [3] })
      secp256r1_group examplePoint examplePoint examplePoint examplePoint
      { p := [2] } { p := [3] } [] [] [] [] []).1 (Or.inl rfl)
  · exact (dispatcher_preconditions okEngine (some secp256r1_group) (some examplePoint)
      none (some examplePoint) (some examplePoint) (some { p := [2] }) (some { p := [3] })
      secp256r1_group examplePoint examplePoint examplePoint examplePoint
      { p := [2] } { p := [3] } [] [] [] [] []).2.1 (Or.inr (Or.inl rfl))
  · exact (dispatcher_preconditions okEngine (some secp256r1_group) (some examplePoint)
      (some examplePoint) (some examplePoint) (some examplePoint) (some { p := [2] })
      none secp256r1_group examplePoint examplePoint examplePoint examplePoint
      { p := [2] } { p := [3] } [] [] [] [] []).2.2.1
      (Or.inr (Or.inr (Or.inr (Or.inr (Or.inl rfl)))))
  · have h := (dispatcher_preconditions okEngine none (some examplePoint) (some examplePoint)
      (some examplePoint) (some examplePoint) (some { p := [2] }) (some { p := [3] })
      secp521r1_group examplePoint examplePoint examplePoint examplePoint
      { p := [2] } { p := [3] } [] [] [] [] []).2.2.2.1 (by decide)
    exact ⟨h.1, h.2.1⟩
  · have h := ((dispatcher_preconditions okEngine none (some examplePoint) (some examplePoint)
      (some examplePoint) (some examplePoint) (some { p := [2] }) (some { p := [3] })
      unknown_sw_group examplePoint examplePoint examplePoint examplePoint
      { p := [2] } { p := [3] } [] [] [] [] []).2.2.2.2 (by decide)).1 (by decide) (by decide)
    exact ⟨h.1, h.2.1⟩
  · exact ((dispatcher_preconditions okEngine none (some examplePoint) (some examplePoint)
      (some examplePoint) (some examplePoint) (some { p := [2] }) (some { p := [3] })
      unknown_mont_group examplePoint examplePoint examplePoint examplePoint
      { p := [2] } { p := [3] } [] [] [] [] []).2.2.2.2 (by decide)).2 (by decide) (by decide)

theorem check_pubkey_buffers (eng : PkeEngine) (g : mbedtls_ecp_group)
    (pt : mbedtls_ecp_point) (i1 i2 : List Nat)
    (hlen : GET_WORD_LEN g.pbits ≤ PKE_OPERAND_MAX_WORD_LEN) :
    (ecp_alt_b91_backend_check_pubkey eng (some g) (some pt) i1 i2).Qx =
      List.replicate (4 * GET_WORD_LEN g.pbits) 0 ∧
    (ecp_alt_b91_backend_check_pubkey eng (some g) (some pt) i1 i2).Qy =
      List.replicate (4 * GET_WORD_LEN g.pbits) 0 := by
  rcases hty : ecp_get_type g with _ | _ | _
  · simp only [ecp_alt_b91_backend_check_pubkey, if_pos hlen, hty]
    exact ⟨trivial, trivial⟩
  · rcases hcg : eccp_curve_get g with _ | c <;>
      simp only [ecp_alt_b91_backend_check_pubkey, if_pos hlen, hty, hcg]
    · exact ⟨trivial, trivial⟩
    · exact ⟨trivial, trivial⟩
  · simp only [ecp_alt_b91_backend_check_pubkey, if_pos hlen, hty]
    exact ⟨trivial, trivial⟩

theorem mul_buffers (eng : PkeEngine) (g : mbedtls_ecp_group)
    (R : mbedtls_ecp_point) (m : Mpi) (P : mbedtls_ecp_point) (i1 i2 i3 : List Nat)
    (hlen : GET_WORD_LEN g.pbits ≤ PKE_OPERAND_MAX_WORD_LEN) :
    (ecp_alt_b91_backend_mul eng (some g) (some R) (some m) (some P) i1 i2 i3).ms =
      List.replicate (4 * GET_WORD_LEN g.pbits) 0 ∧
    (ecp_alt_b91_backend_mul eng (some g) (some R) (some m) (some P) i1 i2 i3).Qx =
      List.replicate (4 * GET_WORD_LEN g.pbits) 0 ∧
    (ecp_alt_b91_backend_mul eng (some g) (some R) (some m) (some P) i1 i2 i3).Qy =
      List.replicate (4 * GET_WORD_LEN g.pbits) 0 := by
  rcases hty : ecp_get_type g with _ | _ | _
  · simp only [ecp_alt_b91_backend_mul, if_pos hlen, hty]
    exact ⟨trivial, trivial, trivial⟩
  · rcases hcg : eccp_curve_get g with _ | c <;>
      simp only [ecp_alt_b91_backend_mul, if_pos hlen, hty, hcg]
    · exact ⟨trivial, trivial, trivial⟩
    · split <;> exact ⟨rfl, rfl, rfl⟩
  · rcases hcg : mont_curve_get g with _ | c <;>
      simp only [ecp_alt_b91_backend_mul, if_pos hlen, hty, hcg]
    · exact ⟨trivial, trivial, trivial⟩
    · split <;> exact ⟨rfl, rfl, rfl⟩

theorem muladd_buffers (eng : PkeEngine) (g : mbedtls_ecp_group)
    (R : mbedtls_ecp_point) (m : Mpi) (P : mbedtls_ecp_point)
    (n : Mpi) (Q : mbedtls_ecp_point) (i1 i2 i3 i4 i5 : List Nat)
    (hlen : GET_WORD_LEN g.pbits ≤ PKE_OPERAND_MAX_WORD_LEN) :
    (ecp_alt_b91_backend_muladd eng (some g) (some R) (some m) (some P) (some n)
        (some Q) i1 i2 i3 i4 i5).ms = List.replicate (4 * GET_WORD_LEN g.pbits) 0 ∧
    (ecp_alt_b91_backend_muladd eng (some g) (some R) (some m) (some P) (some n)
        (some Q) i1 i2 i3 i4 i5).Q1x = List.replicate (4 * GET_WORD_LEN g.pbits) 0 ∧
    (ecp_alt_b91_backend_muladd eng (some g) (some R) (some m) (some P) (some n)
        (some Q) i1 i2 i3 i4 i5).Q1y = List.replicate (4 * GET_WORD_LEN g.pbits) 0 ∧
    (ecp_alt_b91_backend_muladd eng (some g) (some R) (some m) (some P) (some n)
        (some Q) i1 i2 i3 i4 i5).Q2x = List.replicate (4 * GET_WORD_LEN g.pbits) 0 ∧
    (ecp_alt_b91_backend_muladd eng (some g) (some R) (some m) (some P) (some n)
        (some Q) i1 i2 i3 i4 i5).Q2y = List.replicate (4 * GET_WORD_LEN g.pbits) 0 := by
  rcases hty : ecp_get_type g with _ | _ | _
  · simp only [ecp_alt_b91_backend_muladd, if_pos hlen, hty]
    exact ⟨trivial, trivial, trivial, trivial, trivial⟩
  · rcases hcg : eccp_curve_get g with _ | c <;>
      simp only [ecp_alt_b91_backend_muladd, if_pos hlen, hty, hcg]
    · exact ⟨trivial, trivial, trivial, trivial, trivial⟩
    · split
      · exact ⟨rfl, rfl, rfl, rfl, rfl⟩
      · split
        · exact ⟨rfl, rfl, rfl, rfl, rfl⟩
        · split <;> exact ⟨rfl, rfl, rfl, rfl, rfl⟩
  · simp only [ecp_alt_b91_backend_muladd, if_pos hlen, hty]
    exact ⟨trivial, trivial, trivial, trivial, trivial⟩

/-- C8: in each of the three operations, once the fixed-width stack buffers
have been allocated (the word-length bound check passed), every exit path
leaves all of them zeroed in the result, whatever the engine answers and
whether or not the curve resolves. -/
theorem operand_buffers_zeroed (eng : PkeEngine) (g : mbedtls_ecp_group)
    (pt R P Q : mbedtls_ecp_point) (m n : Mpi) (i1 i2 i3 i4 i5 : List Nat)
    (hlen : GET_WORD_LEN g.pbits ≤ PKE_OPERAND_MAX_WORD_LEN) :
    (ecp_alt_b91_backend_check_pubkey eng (some g) (some pt) i1 i2).Qx =
      List.replicate (4 * GET_WORD_LEN g.pbits) 0 ∧
    (ecp_alt_b91_backend_check_pubkey eng (some g) (some pt) i1 i2).Qy =
      List.replicate (4 * GET_WORD_LEN g.pbits) 0 ∧
    (ecp_alt_b91_backend_mul eng (some g) (some R) (some m) (some P) i1 i2 i3).ms =
      List.replicate (4 * GET_WORD_LEN g.pbits) 0 ∧
    (ecp_alt_b91_backend_mul eng (some g) (some R) (some m) (some P) i1 i2 i3).Qx =
      List.replicate (4 * GET_WORD_LEN g.pbits) 0 ∧
    (ecp_alt_b91_backend_mul eng (some g) (some R) (some m) (some P) i1 i2 i3).Qy =
      List.replicate (4 * GET_WORD_LEN g.pbits) 0 ∧
    (ecp_alt_b91_backend_muladd eng (some g) (some R) (some m) (some P) (some n)
        (some Q) i1 i2 i3 i4 i5).ms = List.replicate (4 * GET_WORD_LEN g.pbits) 0 ∧
    (ecp_alt_b91_backend_muladd eng (some g) (some R) (some m) (some P) (some n)
        (some Q) i1 i2 i3 i4 i5).Q1x = List.replicate (4 * GET_WORD_LEN g.pbits) 0 ∧
    (ecp_alt_b91_backend_muladd eng (some g) (some R) (some m) (some P) (some n)
        (some Q) i1 i2 i3 i4 i5).Q1y = List.replicate (4 * GET_WORD_LEN g.pbits) 0 ∧
    (ecp_alt_b91_backend_muladd eng (some g) (some R) (some m) (some P) (some n)
        (some Q) i1 i2 i3 i4 i5).Q2x = List.replicate (4 * GET_WORD_LEN g.pbits) 0 ∧
    (ecp_alt_b91_backend_muladd eng (some g) (some R) (some m) (some P) (some n)
        (some Q) i1 i2 i3 i4 i5).Q2y = List.replicate (4 * GET_WORD_LEN g.pbits) 0 := by
  obtain ⟨h1, h2⟩ := check_pubkey_buffers eng g pt i1 i2 hlen
  obtain ⟨h3, h4, h5⟩ := mul_buffers eng g R m P i1 i2 i3 hlen
  obtain ⟨h6, h7, h8, h9, h10⟩ := muladd_buffers eng g R m P n Q i1 i2 i3 i4 i5 hlen
  exact ⟨h1, h2, h3, h4, h5, h6, h7, h8, h9, h10⟩

/-- Witness for C8 at a concrete input: the fault-reporting engine on
secp256r1 (an error exit path), all ten buffers zeroed. -/
theorem operand_buffers_zeroed_witness :
    (ecp_alt_b91_backend_check_pubkey faultEngine (some secp256r1_group)
        (some examplePoint) [] []).Qx =
      List.replicate (4 * GET_WORD_LEN secp256r1_group.pbits) 0 ∧
    (ecp_alt_b91_backend_check_pubkey faultEngine (some secp256r1_group)
        (some examplePoint) [] []).Qy =
      List.replicate (4 * GET_WORD_LEN secp256r1_group.pbits) 0 ∧
    (ecp_alt_b91_backend_mul faultEngine (some secp256r1_group) (some examplePoint)
        (some { p := [2] }) (some examplePoint) [] [] []).ms =
      List.replicate (4 * GET_WORD_LEN secp256r1_group.pbits) 0 ∧
    (ecp_alt_b91_backend_mul faultEngine (some secp256r1_group) (some examplePoint)
        (some { p := [2] }) (some examplePoint) [] [] []).Qx =
      List.replicate (4 * GET_WORD_LEN secp256r1_group.pbits) 0 ∧
    (ecp_alt_b91_backend_mul faultEngine (some secp256r1_group) (some examplePoint)
        (some { p := [2] }) (some examplePoint) [] [] []).Qy =
      List.replicate (4 * GET_WORD_LEN secp256r1_group.pbits) 0 ∧
    (ecp_alt_b91_backend_muladd faultEngine (some secp256r1_group) (some examplePoint)
        (some { p := [2] }) (some examplePoint) (some { p := [3] }) (some examplePoint)
        [] [] [] [] []).ms = List.replicate (4 * GET_WORD_LEN secp256r1_group.pbits) 0 ∧
    (ecp_alt_b91_backend_muladd faultEngine (some secp256r1_group) (some examplePoint)
        (some { p := [2] }) (some examplePoint) (some { p := [3] }) (some examplePoint)
        [] [] [] [] []).Q1x = List.replicate (4 * GET_WORD_LEN secp256r1_group.pbits) 0 ∧
    (ecp_alt_b91_backend_muladd faultEngine (some secp256r1_group) (some examplePoint)
        (some { p := [2] }) (some examplePoint) (some { p := [3] }) (some examplePoint)
        [] [] [] [] []).Q1y = List.replicate (4 * GET_WORD_LEN secp256r1_group.pbits) 0 ∧
    (ecp_alt_b91_backend_muladd faultEngine (some secp256r1_group) (some examplePoint)
        (some { p := [2] }) (some examplePoint) (some { p := [3] }) (some examplePoint)
        [] [] [] [] []).Q2x = List.replicate (4 * GET_WORD_LEN secp256r1_group.pbits) 0 ∧
    (ecp_alt_b91_backend_muladd faultEngine (some secp256r1_group) (some examplePoint)
        (some { p := [2] }) (some examplePoint) (some { p := [3] }) (some examplePoint)
        [] [] [] [] []).Q2y = List.replicate (4 * GET_WORD_LEN secp256r1_group.pbits) 0 :=
  operand_buffers_zeroed faultEngine secp256r1_group examplePoint examplePoint
    examplePoint examplePoint { p := [2] } { p := [3] } [] [] [] [] [] (by decide)

/-- C6: in `muladd`, a failure of any of the three hardware calls aborts the
remaining steps (the trace stops at the failing call), returns
`HardwareAccelFailed`, and leaves the output point unchanged; only when all
three calls succeed are `R.X` and `R.Y` written from the final coordinates,
with `R.Z` set to 1.  The intermediate operand buffers and engine results are
named by the defining equations `hms1` .. `hr3`. -/
theorem muladd_abort_on_failure (eng : PkeEngine) (g : mbedtls_ecp_group)
    (R P Q : mbedtls_ecp_point) (m n : Mpi) (c : eccp_curve_t)
    (i1 i2 i3 i4 i5 : List Nat)
    (ms1 Q1x1 Q1y1 Q2x1 Q2y1 ms2 : List Nat)
    (r1 r2 r3 : Nat × List Nat × List Nat)
    (hsw : ecp_get_type g = ecp_curve_type.ECP_TYPE_SHORT_WEIERSTRASS)
    (hc : eccp_curve_get g = some c)
    (hlen : GET_WORD_LEN g.pbits ≤ PKE_OPERAND_MAX_WORD_LEN)
    (hms1 : ms1 = (mbedtls_mpi_write_binary_le m (vla (4 * GET_WORD_LEN g.pbits) i1)).2)
    (hQ1x1 : Q1x1 = (mbedtls_mpi_write_binary_le P.X (vla (4 * GET_WORD_LEN g.pbits) i2)).2)
    (hQ1y1 : Q1y1 = (mbedtls_mpi_write_binary_le P.Y (vla (4 * GET_WORD_LEN g.pbits) i3)).2)
    (hQ2x1 : Q2x1 = (mbedtls_mpi_write_binary_le Q.X (vla (4 * GET_WORD_LEN g.pbits) i4)).2)
    (hQ2y1 : Q2y1 = (mbedtls_mpi_write_binary_le Q.Y (vla (4 * GET_WORD_LEN g.pbits) i5)).2)
    (hr1 : r1 = eng.point_mul c ms1 Q1x1 Q1y1)
    (hms2 : ms2 = (mbedtls_mpi_write_binary_le n ms1).2)
    (hr2 : r2 = eng.point_mul c ms2 Q2x1 Q2y1)
    (hr3 : r3 = eng.point_add c r1.2.1 r1.2.2 r2.2.1 r2.2.2) :
    (r1.1 ≠ PKE_SUCCESS →
      (ecp_alt_b91_backend_muladd eng (some g) (some R) (some m) (some P) (some n)
          (some Q) i1 i2 i3 i4 i5).ret = MBEDTLS_ERR_PLATFORM_HW_ACCEL_FAILED ∧
      (ecp_alt_b91_backend_muladd eng (some g) (some R) (some m) (some P) (some n)
          (some Q) i1 i2 i3 i4 i5).R = some R ∧
      (ecp_alt_b91_backend_muladd eng (some g) (some R) (some m) (some P) (some n)
          (some Q) i1 i2 i3 i4 i5).trace =
        [PkeEvent.lock, PkeEvent.callPointMul ms1 Q1x1 Q1y1, PkeEvent.unlock]) ∧
    (r1.1 = PKE_SUCCESS → r2.1 ≠ PKE_SUCCESS →
      (ecp_alt_b91_backend_muladd eng (some g) (some R) (some m) (some P) (some n)
          (some Q) i1 i2 i3 i4 i5).ret = MBEDTLS_ERR_PLATFORM_HW_ACCEL_FAILED ∧
      (ecp_alt_b91_backend_muladd eng (some g) (some R) (some m) (some P) (some n)
          (some Q) i1 i2 i3 i4 i5).R = some R ∧
      (ecp_alt_b91_backend_muladd eng (some g) (some R) (some m) (some P) (some n)
          (some Q) i1 i2 i3 i4 i5).trace =
        [PkeEvent.lock, PkeEvent.callPointMul ms1 Q1x1 Q1y1,
         PkeEvent.callPointMul ms2 Q2x1 Q2y1, PkeEvent.unlock]) ∧
    (r1.1 = PKE_SUCCESS → r2.1 = PKE_SUCCESS → r3.1 ≠ PKE_SUCCESS →
      (ecp_alt_b91_backend_muladd eng (some g) (some R) (some m) (some P) (some n)
          (some Q) i1 i2 i3 i4 i5).ret = MBEDTLS_ERR_PLATFORM_HW_ACCEL_FAILED ∧
      (ecp_alt_b91_backend_muladd eng (some g) (some R) (some m) (some P) (some n)
          (some Q) i1 i2 i3 i4 i5).R = some R ∧
      (ecp_alt_b91_backend_muladd eng (some g) (some R) (some m) (some P) (some n)
          (some Q) i1 i2 i3 i4 i5).trace =
        [PkeEvent.lock, PkeEvent.callPointMul ms1 Q1x1 Q1y1,
         PkeEvent.callPointMul ms2 Q2x1 Q2y1,
         PkeEvent.callPointAdd r1.2.1 r1.2.2 r2.2.1 r2.2.2, PkeEvent.unlock]) ∧
    (r1.1 = PKE_SUCCESS → r2.1 = PKE_SUCCESS → r3.1 = PKE_SUCCESS →
      (ecp_alt_b91_backend_muladd eng (some g) (some R) (some m) (some P) (some n)
          (some Q) i1 i2 i3 i4 i5).ret = 0 ∧
      (ecp_alt_b91_backend_muladd eng (some g) (some R) (some m) (some P) (some n)
          (some Q) i1 i2 i3 i4 i5).R =
        some { X := mbedtls_mpi_read_binary_le R.X r3.2.1
               Y := mbedtls_mpi_read_binary_le R.Y r3.2.2
               Z := mbedtls_mpi_lset R.Z 1 }) := by
  subst hms1 hQ1x1 hQ1y1 hQ2x1 hQ2y1 hr1 hms2 hr2 hr3
  refine ⟨?_, ?_, ?_, ?_⟩
  · intro h1
    simp only [ecp_alt_b91_backend_muladd, if_pos hlen, hsw, hc, if_pos h1]
    refine ⟨?_, ?_, ?_⟩ <;> trivial
  · intro h1 h2
    simp only [ecp_alt_b91_backend_muladd, if_pos hlen, hsw, hc,
      if_neg (not_not_intro h1), if_pos h2]
    refine ⟨?_, ?_, ?_⟩ <;> trivial
  · intro h1 h2 h3
    simp only [ecp_alt_b91_backend_muladd, if_pos hlen, hsw, hc,
      if_neg (not_not_intro h1), if_neg (not_not_intro h2), if_pos h3]
    refine ⟨?_, ?_, ?_⟩ <;> trivial
  · intro h1 h2 h3
    simp only [ecp_alt_b91_backend_muladd, if_pos hlen, hsw, hc,
      if_neg (not_not_intro h1), if_neg (not_not_intro h2), if_neg (not_not_intro h3)]
    refine ⟨?_, ?_⟩ <;> trivial

/-- Witness for C6 at concrete inputs: on secp256r1, the all-succeeding
engine writes the output point (ret 0); the always-faulting engine fails the
first multiply, returns `HardwareAccelFailed`, and leaves the output point
unchanged. -/
theorem muladd_abort_on_failure_witness :
    (ecp_alt_b91_backend_muladd okEngine (some secp256r1_group) (some examplePoint)
        (some { p := [2] }) (some examplePoint) (some { p := [3] }) (some examplePoint)
        [] [] [] [] []).ret = 0 ∧
    (ecp_alt_b91_backend_muladd faultEngine (some secp256r1_group) (some examplePoint)
        (some { p := [2] }) (some examplePoint) (some { p := [3] }) (some examplePoint)
        [] [] [] [] []).ret = MBEDTLS_ERR_PLATFORM_HW_ACCEL_FAILED ∧
    (ecp_alt_b91_backend_muladd faultEngine (some secp256r1_group) (some examplePoint)
        (some { p := [2] }) (some examplePoint) (some { p := [3] }) (some examplePoint)
        [] [] [] [] []).R = some examplePoint := by
  have hok := (muladd_abort_on_failure okEngine secp256r1_group examplePoint
    examplePoint examplePoint { p := [2] } { p := [3] } secp256r1 [] [] [] [] []
    _ _ _ _ _ _ _ _ _ (by decide) (by decide) (by decide)
    rfl rfl rfl rfl rfl rfl rfl rfl rfl).2.2.2 (by decide) (by decide) (by decide)
  have hfail := (muladd_abort_on_failure faultEngine secp256r1_group examplePoint
    examplePoint examplePoint { p := [2] } { p := [3] } secp256r1 [] [] [] [] []
    _ _ _ _ _ _ _ _ _ (by decide) (by decide) (by decide)
    rfl rfl rfl rfl rfl rfl rfl rfl rfl).1 (by decide)
  exact ⟨hok.1, hfail.1, hfail.2.1⟩

/-- C9: whenever `muladd` reaches the hardware (short-Weierstrass, registered
curve, operand width within bound, non-null arguments), its event trace
starts with one lock, ends with one unlock, contains exactly one of each, and
everything in between — one to three events — is a hardware-engine call: the
lock is held continuously across every hardware call of the operation. -/
theorem muladd_single_lock_span (eng : PkeEngine) (g : mbedtls_ecp_group)
    (R P Q : mbedtls_ecp_point) (m n : Mpi) (c : eccp_curve_t)
    (i1 i2 i3 i4 i5 : List Nat)
    (hsw : ecp_get_type g = ecp_curve_type.ECP_TYPE_SHORT_WEIERSTRASS)
    (hc : eccp_curve_get g = some c)
    (hlen : GET_WORD_LEN g.pbits ≤ PKE_OPERAND_MAX_WORD_LEN) :
    (ecp_alt_b91_backend_muladd eng (some g) (some R) (some m) (some P) (some n)
        (some Q) i1 i2 i3 i4 i5).trace.head? = some PkeEvent.lock ∧
    (ecp_alt_b91_backend_muladd eng (some g) (some R) (some m) (some P) (some n)
        (some Q) i1 i2 i3 i4 i5).trace.getLast? = some PkeEvent.unlock ∧
    (ecp_alt_b91_backend_muladd eng (some g) (some R) (some m) (some P) (some n)
        (some Q) i1 i2 i3 i4 i5).trace.countP
      (fun e => decide (e = PkeEvent.lock)) = 1 ∧
    (ecp_alt_b91_backend_muladd eng (some g) (some R) (some m) (some P) (some n)
        (some Q) i1 i2 i3 i4 i5).trace.countP
      (fun e => decide (e = PkeEvent.unlock)) = 1 ∧
    2 < (ecp_alt_b91_backend_muladd eng (some g) (some R) (some m) (some P) (some n)
        (some Q) i1 i2 i3 i4 i5).trace.length ∧
    (ecp_alt_b91_backend_muladd eng (some g) (some R) (some m) (some P) (some n)
        (some Q) i1 i2 i3 i4 i5).trace.length ≤ 5 ∧
    ∀ e ∈ (ecp_alt_b91_backend_muladd eng (some g) (some R) (some m) (some P) (some n)
        (some Q) i1 i2 i3 i4 i5).trace,
      e ≠ PkeEvent.lock → e ≠ PkeEvent.unlock → e.isEngineCall = true := by
  simp only [ecp_alt_b91_backend_muladd, if_pos hlen, hsw, hc]
  split
  · refine ⟨rfl, rfl, ?_, ?_, by simp, by simp, ?_⟩ <;>
      simp [List.countP_cons, PkeEvent.isEngineCall]
  · split
    · refine ⟨rfl, rfl, ?_, ?_, by simp, by simp, ?_⟩ <;>
        simp [List.countP_cons, PkeEvent.isEngineCall]
    · split
      · refine ⟨rfl, rfl, ?_, ?_, by simp, by simp, ?_⟩ <;>
          simp [List.countP_cons, PkeEvent.isEngineCall]
      · refine ⟨rfl, rfl, ?_, ?_, by simp, by simp, ?_⟩ <;>
          simp [List.countP_cons, PkeEvent.isEngineCall]

/-- Witness for C9 at a concrete input: the all-succeeding engine on
secp256r1; the trace has the single-lock shape. -/
theorem muladd_single_lock_span_witness :
    (ecp_alt_b91_backend_muladd okEngine (some secp256r1_group) (some examplePoint)
        (some { p := [2] }) (some examplePoint) (some { p := [3] }) (some examplePoint)
        [] [] [] [] []).trace.head? = some PkeEvent.lock ∧
    (ecp_alt_b91_backend_muladd okEngine (some secp256r1_group) (some examplePoint)
        (some { p := [2] }) (some examplePoint) (some { p := [3] }) (some examplePoint)
        [] [] [] [] []).trace.getLast? = some PkeEvent.unlock :=
  let h := muladd_single_lock_span okEngine secp256r1_group examplePoint examplePoint
    examplePoint { p := [2] } { p := [3] } secp256r1 [] [] [] [] []
    (by decide) (by decide) (by decide)
  ⟨h.1, h.2.1⟩

/-- An mpi stored in nine limbs whose ninth limb is nonzero: byte 32 of its
representation is nonzero, so it cannot be losslessly encoded into the
32-byte buffer of a 256-bit curve. -/
def overlongMpi : Mpi := { p := [0, 0, 0, 0, 0, 0, 0, 0, 7] }

/-- A point whose X coordinate cannot be encoded into a 256-bit curve
buffer. -/
def overlongPoint : mbedtls_ecp_point :=
  { X := overlongMpi
    Y := { p := [1] }
    Z := { p := [1] } }

/-- Recognizable junk standing for the indeterminate initial contents of a
32-byte stack VLA. -/
def junk32 : List Nat := List.replicate 32 9

/-- C10: all three operations discard the return value of the little-endian
encode.  At these concrete inputs the encode of the oversized coordinate or
scalar fails with `BufferTooSmall` and leaves the destination buffer
unchanged (still the junk it started with), yet each operation proceeds to
invoke the hardware engine — handing it the unwritten junk buffer — and
returns the engine's verdict (0 for the always-succeeding engine), not
`BufferTooSmall`. -/
theorem encode_error_discarded :
    (mbedtls_mpi_write_binary_le overlongMpi (vla 32 junk32)).1 =
      MBEDTLS_ERR_MPI_BUFFER_TOO_SMALL ∧
    (mbedtls_mpi_write_binary_le overlongMpi (vla 32 junk32)).2 = junk32 ∧
    (0 : Int) ≠ MBEDTLS_ERR_MPI_BUFFER_TOO_SMALL ∧
    (ecp_alt_b91_backend_check_pubkey okEngine (some secp256r1_group)
        (some overlongPoint) junk32 []).ret = 0 ∧
    (ecp_alt_b91_backend_check_pubkey okEngine (some secp256r1_group)
        (some overlongPoint) junk32 []).trace =
      [PkeEvent.lock,
       PkeEvent.callVerify junk32 (1 :: List.replicate 31 0),
       PkeEvent.unlock] ∧
    (ecp_alt_b91_backend_mul okEngine (some secp256r1_group) (some examplePoint)
        (some overlongMpi) (some examplePoint) junk32 [] []).ret = 0 ∧
    (ecp_alt_b91_backend_mul okEngine (some secp256r1_group) (some examplePoint)
        (some overlongMpi) (some examplePoint) junk32 [] []).trace =
      [PkeEvent.lock,
       PkeEvent.callPointMul junk32 (1 :: List.replicate 31 0) (1 :: List.replicate 31 0),
       PkeEvent.unlock] ∧
    (ecp_alt_b91_backend_muladd okEngine (some secp256r1_group) (some examplePoint)
        (some overlongMpi) (some examplePoint) (some { p := [3] }) (some examplePoint)
        junk32 [] [] [] []).ret = 0 ∧
    (ecp_alt_b91_backend_muladd okEngine (some secp256r1_group) (some examplePoint)
        (some overlongMpi) (some examplePoint) (some { p := [3] }) (some examplePoint)
        junk32 [] [] [] []).trace =
      [PkeEvent.lock,
       PkeEvent.callPointMul junk32 (1 :: List.replicate 31 0) (1 :: List.replicate 31 0),
       PkeEvent.callPointMul (3 :: List.replicate 31 0) (1 :: List.replicate 31 0)
         (1 :: List.replicate 31 0),
       PkeEvent.callPointAdd (1 :: List.replicate 31 0) (1 :: List.replicate 31 0)
         (1 :: List.replicate 31 0) (1 :: List.replicate 31 0),
       PkeEvent.unlock] := by
  decide
